import Mathlib

/-! host1x fences (drivers/gpu/host1x/fence.c).

A shallow embedding of the syncpoint-backed DMA fences of the host1x driver:
the fence operations table (`host1x_fence_ops`), the hardware-wait fast path
(`host1x_fence_is_waitable`, `host1x_fence_wait`) and `host1x_fence_create`.

Calls into the collaborators that fence.c only uses (the syncpoint code, the
interrupt code, the channel hardware ops, the allocator) are recorded, oldest
first, in the trace of the `World`.
-/

namespace Host1x

/-! ## Data model -/

/-- The errno value EINVAL. -/
def EINVAL : Int := 22

/-- Identity of a `struct dma_fence_ops` table: `fence->ops` is compared by address. -/
inductive fence_ops where
  | host1x_fence_ops
  | dma_fence_array_ops
  | other (table : Nat)
  deriving DecidableEq, Repr

/-- A `struct host1x_syncpt`, as far as fence.c reads it: its `id`. -/
structure host1x_syncpt where
  id : Nat
  deriving DecidableEq, Repr

/-- The `struct host1x` engine instance, as far as fence.c reads it. -/
structure host1x where
  id : Nat
  fence_ctx_base : Nat
  deriving DecidableEq, Repr

/-- A `struct host1x_channel`, identified by its number. -/
structure host1x_channel where
  id : Nat
  deriving DecidableEq, Repr

/-- The `struct host1x_fence` of fence.c. `addr` is the address of the allocation
(the value `kzalloc` returned); `context`, `seqno` and `refcount` are the fields of
the embedded `struct dma_fence base` that `dma_fence_init` sets; `waiter` is the
`void *waiter` registration handle, `none` for NULL. -/
structure host1x_fence where
  addr : Nat
  context : Nat
  seqno : Nat
  refcount : Nat
  syncpt : host1x_syncpt
  threshold : Nat
  host : host1x
  waiter : Option Nat
  timeline_name : String
  deriving DecidableEq, Repr

/-- A `struct dma_fence *`: a fence of this driver (`ops == &host1x_fence_ops`), a
`struct dma_fence_array` (`ops == &dma_fence_array_ops`) with its `fences[0..num_fences)`,
or a fence of some other driver. -/
inductive dma_fence where
  | host1x (f : host1x_fence)
  | array (fences : List dma_fence)
  | foreign (table : Nat)

/-- The field `fence->ops`. -/
def dma_fence.ops : dma_fence → fence_ops
  | .host1x _ => .host1x_fence_ops
  | .array _ => .dma_fence_array_ops
  | .foreign t => .other t

/-- A call made by fence.c into code outside it. -/
inductive Event where
  | kfree (addr : Nat)
  | intr_add_action (host id thresh data waiter : Nat)
  | intr_put_ref (host id ref : Nat)
  | push_wait (host ch id thresh : Nat)
  deriving DecidableEq, Repr

/-- State outside the fence objects: the current value of every syncpoint (the Counter
Registry) and the calls made so far, oldest first. -/
structure World where
  syncpt_val : Nat → Nat
  trace : List Event

/-- Append one recorded call to the trace. -/
def World.emit (w : World) (e : Event) : World :=
  { w with trace := w.trace ++ [e] }

/-- What the allocator and the interrupt code answer during one `host1x_fence_create`:
the two `kzalloc` results (`none` for NULL) and the return value of
`host1x_intr_add_action`. -/
structure Env where
  kzalloc_f : Option Nat
  kzalloc_waiter : Option Nat
  intr_add_action_err : Int
  deriving DecidableEq, Repr

/-! ## Collaborators of fence.c -/

/-- Modelled from the spec: `host1x_syncpt_is_expired` (syncpt.c is not among the
sources): the Counter Registry query "has counter C reached value V", pure and
non-blocking; counters are taken wide enough that wraparound is not a concern. -/
def host1x_syncpt_is_expired (w : World) (sp : host1x_syncpt) (thresh : Nat) : Bool :=
  decide (thresh ≤ w.syncpt_val sp.id)

/-- Modelled from the spec: `to_dma_fence_array` (linux/dma-fence-array.h is not among
the sources): the Completion Join behind a completion, NULL when it is not a join. -/
def to_dma_fence_array (fence : dma_fence) : Option (List dma_fence) :=
  match fence with
  | .array fences => some fences
  | _ => none

/-- The cast `to_host1x_fence`; it is only meaningful on a fence whose ops are
`host1x_fence_ops`, and `none` stands for the cast of any other fence. -/
def to_host1x_fence (fence : dma_fence) : Option host1x_fence :=
  match fence with
  | .host1x f => some f
  | _ => none

/-- Modelled from the spec: `host1x_hw_channel_push_wait` (the channel hardware ops are
not among the sources): `push_wait_instruction(channel, counter_id, threshold)` pushes
one inline wait instruction into the channel. -/
def host1x_hw_channel_push_wait (w : World) (host : host1x) (ch : host1x_channel)
    (id thresh : Nat) : World :=
  w.emit (.push_wait host.id ch.id id thresh)

/-- Modelled from the spec: `host1x_intr_add_action` (intr.c is not among the sources):
`register_threshold_action(engine, counter_id, threshold, callback, context)` yields a
handle or a failure. The call is recorded; on success (return value 0) the handle, the
waiter record, is stored through `ref`, on failure `ref` keeps its value. -/
def host1x_intr_add_action (w : World) (err : Int) (host : host1x) (id thresh : Nat)
    (data waiter : Nat) (ref : Option Nat) : Int × Option Nat × World :=
  let w1 := w.emit (.intr_add_action host.id id thresh data waiter)
  if err = 0 then (0, some waiter, w1) else (err, ref, w1)

/-- Modelled from the spec: `host1x_intr_put_ref` (intr.c is not among the sources):
`unregister_action(engine, counter_id, handle)`. -/
def host1x_intr_put_ref (w : World) (host : host1x) (id ref : Nat) : World :=
  w.emit (.intr_put_ref host.id id ref)

/-- The allocator's `kfree`. -/
def kfree (w : World) (addr : Nat) : World :=
  w.emit (.kfree addr)

/-- The `snprintf(buf, size, "%d", id)` of `host1x_fence_create`: the decimal rendering
of the `unsigned int` id read as an `int`, cut to `size - 1` characters. -/
def snprintf_d (size : Nat) (id : Nat) : String :=
  let v := id % 2 ^ 32
  let s := if v < 2 ^ 31 then Nat.repr v else "-" ++ Nat.repr (2 ^ 32 - v)
  String.mk (s.toList.take (size - 1))

/-! ## fence.c -/

/-- The `.get_driver_name` operation. -/
def host1x_fence_get_driver_name (_f : host1x_fence) : String := "host1x"

/-- The `.get_timeline_name` operation. -/
def host1x_fence_get_timeline_name (f : host1x_fence) : String := f.timeline_name

/-- The `.enable_signaling` operation, as a step on (object, world). -/
def host1x_fence_enable_signaling (w : World) (f : host1x_fence) :
    Bool × host1x_fence × World :=
  if host1x_syncpt_is_expired w f.syncpt f.threshold then (false, f, w)
  else (true, f, w)

/-- The `.signaled` operation, as a step on (object, world). -/
def host1x_fence_signaled (w : World) (f : host1x_fence) : Bool × host1x_fence × World :=
  (host1x_syncpt_is_expired w f.syncpt f.threshold, f, w)

/-- The `.release` operation: drop the interrupt reference if there is one, then free
the object. -/
def host1x_fence_release (w : World) (f : host1x_fence) : World :=
  let w1 := match f.waiter with
    | some ref => host1x_intr_put_ref w f.host f.syncpt.id ref
    | none => w
  kfree w1 f.addr

/-- Modelled from the spec: `dma_fence_put` (linux/dma-fence.h is not among the
sources): drops one reference; the object's `release` is invoked exactly once, when
the last reference is dropped. -/
def dma_fence_put (w : World) (f : host1x_fence) : World :=
  if f.refcount - 1 = 0 then host1x_fence_release w { f with refcount := 0 } else w

/-- The static helper `host1x_fence_wait_single`. -/
def host1x_fence_wait_single (w : World) (f : host1x_fence) (host : host1x)
    (ch : host1x_channel) : World :=
  if host1x_syncpt_is_expired w f.syncpt f.threshold then w
  else host1x_hw_channel_push_wait w host ch f.syncpt.id f.threshold

/-- The `for` loop of `host1x_fence_is_waitable` over `array->fences[i]`. -/
def host1x_fence_is_waitable_loop : List dma_fence → Bool
  | [] => true
  | fence :: rest =>
    if fence.ops ≠ fence_ops.host1x_fence_ops then false
    else host1x_fence_is_waitable_loop rest

/-- Check if a DMA fence can be waited by hardware (`host1x_fence_is_waitable`). -/
def host1x_fence_is_waitable (fence : dma_fence) : Bool :=
  match to_dma_fence_array fence with
  | none => decide (fence.ops = fence_ops.host1x_fence_ops)
  | some array => host1x_fence_is_waitable_loop array

/-- The `for` loop of `host1x_fence_wait` over `array->fences[i]`; `none` when a member
is cast to `struct host1x_fence` without being one. -/
def host1x_fence_wait_loop (w : World) (host : host1x) (ch : host1x_channel) :
    List dma_fence → Option World
  | [] => some w
  | fence :: rest =>
    match to_host1x_fence fence with
    | none => none
    | some f => host1x_fence_wait_loop (host1x_fence_wait_single w f host ch) host ch rest

/-- Insert waits for a fence into a channel (`host1x_fence_wait`): the return value
(0 on success, -errno otherwise) and the world afterwards; `none` when a fence is cast
to `struct host1x_fence` without being one. -/
def host1x_fence_wait (w : World) (fence : dma_fence) (host : host1x)
    (ch : host1x_channel) : Option (Int × World) :=
  if ¬ host1x_fence_is_waitable fence then some (-EINVAL, w)
  else
    match to_dma_fence_array fence with
    | none =>
      match to_host1x_fence fence with
      | none => none
      | some f => some (0, host1x_fence_wait_single w f host ch)
    | some array =>
      match host1x_fence_wait_loop w host ch array with
      | none => none
      | some w1 => some (0, w1)

/-- Create a fence for (syncpt, threshold) (`host1x_fence_create`): the returned
pointer (`none` for NULL) and the world afterwards. -/
def host1x_fence_create (w : World) (env : Env) (host : host1x) (syncpt : host1x_syncpt)
    (threshold : Nat) : Option host1x_fence × World :=
  match env.kzalloc_f with
  | none => (none, w)
  | some faddr =>
    match env.kzalloc_waiter with
    | none => (none, kfree w faddr)
    | some waiter =>
      let f : host1x_fence :=
        { addr := faddr
          context := (host.fence_ctx_base + syncpt.id) % 2 ^ 64
          seqno := threshold
          refcount := 1
          syncpt := syncpt
          threshold := threshold
          host := host
          waiter := none
          timeline_name := snprintf_d 10 syncpt.id }
      let r := host1x_intr_add_action w env.intr_add_action_err f.host f.syncpt.id
        f.threshold f.addr waiter f.waiter
      let f1 := { f with waiter := r.2.1 }
      if r.1 ≠ 0 then (none, dma_fence_put (kfree r.2.2 waiter) f1)
      else (some f1, r.2.2)

/-! ## Steps of the environment -/

/-- Modelled from the spec: the hardware advancing a counter (the Counter Registry is
not among the sources): counter `sp` now reads `v`; nothing else changes. -/
def counter_advance (w : World) (sp : host1x_syncpt) (v : Nat) : World :=
  { w with syncpt_val := Function.update w.syncpt_val sp.id v }

/-- Modelled from the spec: the callback the Interrupt Dispatcher fires for a fence
(the signal-fence action of intr.c is not among the sources): it "simply flips the
satisfied flag and notifies any generic waiters". The flag is the generic completion's
own and the registration it clears is the dispatcher's own record: no field of
`struct host1x_fence` is written, the handle in `waiter` included, and no call into
the collaborators of fence.c is made. -/
def action_signal_fence (w : World) (f : host1x_fence) : host1x_fence × World :=
  (f, w)

/-! ## Observations on traces -/

/-- The wait instructions in a trace, as (channel, counter id, threshold). -/
def pushed_waits : List Event → List (Nat × Nat × Nat)
  | [] => []
  | .push_wait _ ch id thresh :: rest => (ch, id, thresh) :: pushed_waits rest
  | _ :: rest => pushed_waits rest

/-- The registrations with the Interrupt Dispatcher in a trace, as (counter id,
threshold). -/
def registrations : List Event → List (Nat × Nat)
  | [] => []
  | .intr_add_action _ id thresh _ _ :: rest => (id, thresh) :: registrations rest
  | _ :: rest => registrations rest

/-- The unregistrations with the Interrupt Dispatcher in a trace, as (counter id,
handle). -/
def unregistrations : List Event → List (Nat × Nat)
  | [] => []
  | .intr_put_ref _ id ref :: rest => (id, ref) :: unregistrations rest
  | _ :: rest => unregistrations rest

/-- The addresses freed in a trace. -/
def freed : List Event → List Nat
  | [] => []
  | .kfree addr :: rest => addr :: freed rest
  | _ :: rest => freed rest

/-! ## The specification's wording of the waitable check -/

mutual
/-- The check `is_hardware_waitable` as the specification words it: a single Completion
Object of this subsystem, or a Completion Join all of whose members are, recursively,
hardware-waitable; false for a foreign completion. -/
def spec_is_hardware_waitable : dma_fence → Bool
  | .host1x _ => true
  | .array fences => spec_all_hardware_waitable fences
  | .foreign _ => false
/-- Every member of a list of completions is hardware-waitable in the specification's
sense. -/
def spec_all_hardware_waitable : List dma_fence → Bool
  | [] => true
  | fence :: rest => spec_is_hardware_waitable fence && spec_all_hardware_waitable rest
end

/-! ## Runs -/

/-- One step of a run, seen from a fence object: the object keeps its counter and its
threshold, and the counter does not go down. -/
def counter_only_increases (s t : World × host1x_fence) : Prop :=
  t.2.syncpt = s.2.syncpt ∧ t.2.threshold = s.2.threshold ∧
    s.1.syncpt_val s.2.syncpt.id ≤ t.1.syncpt_val s.2.syncpt.id

/-! ## Sample values -/

/-- A fence object for counter `id` and threshold `thresh`, with no registration. -/
def sample_fence (id thresh : Nat) : host1x_fence :=
  { addr := 4096 + id
    context := id
    seqno := thresh
    refcount := 1
    syncpt := { id := id }
    threshold := thresh
    host := { id := 0, fence_ctx_base := 0 }
    waiter := none
    timeline_name := "" }

/-- A world in which every counter stands at `v` and nothing has been recorded. -/
def sample_world (v : Nat) : World :=
  { syncpt_val := fun _ => v, trace := [] }

end Host1x

/-! ROHM BH1730 ambient light sensor (drivers/iio/light/bh1730.c).

The `int` computations of the driver are carried out in `Int`: on the 16-bit words the
sensor delivers none of them leaves the range of `int`. The `u64` computations wrap
modulo 2^64. An integer division by zero has no result (`none`). -/

namespace Bh1730

/-- Conversion of an `int` to `u64`. -/
def to_u64 (x : Int) : Nat := (x % 2 ^ 64).toNat

/-- Conversion of a `u64` to `s64`. -/
def to_s64 (x : Nat) : Int :=
  if x % 2 ^ 64 < 2 ^ 63 then ((x % 2 ^ 64 : Nat) : Int) else ((x % 2 ^ 64 : Nat) : Int) - 2 ^ 64

/-- The `/` of C on `int`: truncating, without a result when the divisor is zero. -/
def int_div (a b : Int) : Option Int :=
  if b = 0 then none else some (Int.tdiv a b)

/-- The `/` of C on `u64`, without a result when the divisor is zero. -/
def u64_div (a b : Nat) : Option Nat :=
  if b = 0 then none else some (a / b)

/-- `BH1730_INTERNAL_CLOCK_NS`. -/
def BH1730_INTERNAL_CLOCK_NS : Nat := 2800

/-- `NSEC_PER_USEC`. -/
def NSEC_PER_USEC : Nat := 1000

/-- `USEC_PER_MSEC`. -/
def USEC_PER_MSEC : Nat := 1000

/-- `enum bh1730_gain`, by value. -/
def BH1730_GAIN_1X : Int := 0

/-- `enum bh1730_gain`, by value. -/
def BH1730_GAIN_2X : Int := 1

/-- `enum bh1730_gain`, by value. -/
def BH1730_GAIN_64X : Int := 2

/-- `enum bh1730_gain`, by value. -/
def BH1730_GAIN_128X : Int := 3

/-- The `struct bh1730_data`, without its i2c client: the stored gain setting (an `enum
bh1730_gain`) and the stored `itime`. -/
structure bh1730_data where
  gain : Int
  itime : Int
  deriving DecidableEq, Repr

/-- The gain multiplier of a gain setting, -1 for a value outside the enumeration. -/
def gain_setting_to_multiplier (gain : Int) : Int :=
  if gain = BH1730_GAIN_1X then 1
  else if gain = BH1730_GAIN_2X then 2
  else if gain = BH1730_GAIN_64X then 64
  else if gain = BH1730_GAIN_128X then 128
  else -1

/-- The multiplier of the stored gain; an invalid stored gain is reset to 1X. Returns the
multiplier and the data afterwards. -/
def bh1730_gain_multiplier (bh1730 : bh1730_data) : Int × bh1730_data :=
  let multiplier := gain_setting_to_multiplier bh1730.gain
  if multiplier < 0 then (1, { bh1730 with gain := BH1730_GAIN_1X })
  else (multiplier, bh1730)

/-- The integration time in nanoseconds, a `u64`. -/
def bh1730_itime_ns (bh1730 : bh1730_data) : Nat :=
  (BH1730_INTERNAL_CLOCK_NS * 964 * to_u64 (256 - bh1730.itime)) % 2 ^ 64

/-- The coefficients `(visible_coef, ir_coef)` that the chain of comparisons on
`ir * 1000 / visible` selects; `none` in the last branch, which returns 0. -/
def select_coefs (ratio : Int) : Option (Int × Int) :=
  if ratio < 500 then some (5002, 7502)
  else if ratio < 754 then some (2250, 2000)
  else if ratio < 1029 then some (1999, 1667)
  else if ratio < 1373 then some (885, 583)
  else if ratio < 1879 then some (309, 165)
  else none

/-- The function `bh1730_get_millilux`, given the words the two `bh1730_read_word` calls
deliver (`visible` from DATA0, `ir` from DATA1, negative for an i2c error): the `s64` it
returns and the data afterwards; `none` when it divides by zero. -/
def bh1730_get_millilux (bh1730 : bh1730_data) (visible ir : Int) :
    Option (Int × bh1730_data) :=
  let itime_us : Nat := bh1730_itime_ns bh1730 / NSEC_PER_USEC
  if visible < 0 then some (visible, bh1730)
  else if ir < 0 then some (ir, bh1730)
  else
    match int_div (ir * 1000) visible with
    | none => none
    | some ratio =>
      match select_coefs ratio with
      | none => some (0, bh1730)
      | some (visible_coef, ir_coef) =>
        let millilux := (USEC_PER_MSEC * to_u64 (visible_coef * visible - ir_coef * ir)) % 2 ^ 64
        let m := bh1730_gain_multiplier bh1730
        match u64_div millilux (to_u64 m.1) with
        | none => none
        | some millilux1 =>
          let millilux2 := (millilux1 * 103) % 2 ^ 64
          match u64_div millilux2 itime_us with
          | none => none
          | some millilux3 => some (to_s64 millilux3, m.2)

/-- The value the weighted difference stands for, computed without wrapping:
floor(floor(1000 * (visible_coef * visible - ir_coef * ir) / gain) * 103 / itime_us). -/
def millilux_exact (visible_coef ir_coef visible ir gain itime_us : Int) : Int :=
  (1000 * (visible_coef * visible - ir_coef * ir) / gain) * 103 / itime_us

/-! ## Integration time and gain -/

/-- `NSEC_PER_MSEC`. -/
def NSEC_PER_MSEC : Nat := 1000000

/-- The errno value ERANGE. -/
def ERANGE : Int := 34

/-- `USHRT_MAX`. -/
def USHRT_MAX : Int := 65535

/-- `BH1730_CMD_BIT`. -/
def BH1730_CMD_BIT : Nat := 0x80

/-- `BH1730_REG_TIMING`. -/
def BH1730_REG_TIMING : Nat := 0x01

/-- `BH1730_REG_GAIN`. -/
def BH1730_REG_GAIN : Nat := 0x07

/-- `BH1730_DEFAULT_INTEG_MS`. -/
def BH1730_DEFAULT_INTEG_MS : Int := 150

/-- Conversion of a `u64` to `int`: the low 32 bits, read as signed. -/
def to_int (x : Nat) : Int :=
  if x % 2 ^ 32 < 2 ^ 31 then ((x % 2 ^ 32 : Nat) : Int) else ((x % 2 ^ 32 : Nat) : Int) - 2 ^ 32

/-- Conversion of an `int` to `u8`. -/
def to_u8 (x : Int) : Nat := (x % 256).toNat

/-- What the driver does to the device: a register write with its outcome, or a delay. -/
inductive dev_event where
  | write (reg val : Nat) (ret : Int)
  | ndelay (ns : Nat)
  deriving DecidableEq, Repr

/-- Modelled from the spec: `DIV_ROUND_CLOSEST_ULL` (linux/kernel.h is not among the
sources): the quotient of two `u64` rounded to the closest integer, computed as
`x + divisor / 2` divided by `divisor`. -/
def DIV_ROUND_CLOSEST_ULL (x divisor : Nat) : Nat :=
  ((x + divisor / 2) % 2 ^ 64) / divisor

/-- The function `bh1730_write`, given the outcome `ret` of the i2c transfer: it returns
`ret` and the write is recorded. -/
def bh1730_write (ret : Int) (reg val : Nat) : Int × List dev_event :=
  (ret, [dev_event.write (BH1730_CMD_BIT ||| reg) (val % 256) ret])

/-- The function `bh1730_set_gain`, given the outcome of its i2c write: return value,
data afterwards, device events. -/
def bh1730_set_gain (bh1730 : bh1730_data) (gain : Int) (write_ret : Int) :
    Int × bh1730_data × List dev_event :=
  let r := bh1730_write write_ret BH1730_REG_GAIN (to_u8 gain)
  if r.1 < 0 then (r.1, bh1730, r.2)
  else (0, { bh1730 with gain := gain }, r.2)

/-- The function `bh1730_set_integration_time_ms`, given the outcome of its i2c write:
return value, data afterwards, device events. -/
def bh1730_set_integration_time_ms (bh1730 : bh1730_data) (time_ms : Int)
    (write_ret : Int) : Int × bh1730_data × List dev_event :=
  let time_ns : Nat := (to_u64 time_ms * NSEC_PER_MSEC) % 2 ^ 64
  let itime_step_ns : Nat := (BH1730_INTERNAL_CLOCK_NS * 964) % 2 ^ 64
  let itime : Int := 256 - to_int (DIV_ROUND_CLOSEST_ULL time_ns itime_step_ns)
  if itime ≤ 0 ∨ itime > 255 then (-ERANGE, bh1730, [])
  else
    let r := bh1730_write write_ret BH1730_REG_TIMING (to_u8 itime)
    if r.1 < 0 then (r.1, bh1730, r.2)
    else (0, { bh1730 with itime := itime }, r.2)

/-- The function `bh1730_wait_for_next_measurement`: one delay. -/
def bh1730_wait_for_next_measurement (bh1730 : bh1730_data) : List dev_event :=
  [dev_event.ndelay ((bh1730_itime_ns bh1730 + BH1730_INTERNAL_CLOCK_NS * 714) % 2 ^ 64)]

/-- The `for` loop of `bh1730_adjust_gain`, from gain setting `i` on, with at most `fuel`
iterations left: the value of `i` when the loop is left. -/
def adjust_gain_loop (highest : Int) : Nat → Int → Int
  | 0, i => i
  | fuel + 1, i =>
    if i < BH1730_GAIN_128X then
      if Int.tdiv (highest * gain_setting_to_multiplier i) 128 ≥ 1024 then i
      else adjust_gain_loop highest fuel (i + 1)
    else i

/-- The function `bh1730_adjust_gain`, given the words the two `bh1730_read_word` calls
deliver and the outcome of the i2c write it may make: return value, data afterwards,
device events. The loop runs from 1X and leaves at 128X at the latest, three
iterations. -/
def bh1730_adjust_gain (bh1730 : bh1730_data) (visible ir : Int) (write_ret : Int) :
    Int × bh1730_data × List dev_event :=
  if visible < 0 then (visible, bh1730, [])
  else if ir < 0 then (ir, bh1730, [])
  else
    let highest := max visible ir
    let hm : Int × bh1730_data :=
      if highest = USHRT_MAX then (highest * 128, bh1730)
      else
        let m := bh1730_gain_multiplier bh1730
        (Int.tdiv (highest * 128) m.1, m.2)
    let i := adjust_gain_loop hm.1 3 BH1730_GAIN_1X
    if i ≠ hm.2.gain then
      let r := bh1730_set_gain hm.2 i write_ret
      if r.1 < 0 then (r.1, r.2.1, r.2.2)
      else (0, r.2.1, r.2.2 ++ bh1730_wait_for_next_measurement r.2.1)
    else (0, hm.2, [])

/-- The itime in the claim's words: 256 - round(time_ms * 10^6 / 2699200), halves
rounded up. -/
def itime_rounded (time_ms : Int) : Int :=
  256 - (time_ms * 1000000 + 1349600) / 2699200

/-- The reading the gain selection works on, in the claim's words: the higher of the two
words times 128 over the current multiplier, and 65535 * 128 when the higher word is
clamped at 65535. -/
def normalised_reading (gain visible ir : Int) : Int :=
  if max visible ir = 65535 then 65535 * 128
  else max visible ir * 128 / gain_setting_to_multiplier gain

/-- The gain in the claim's words: the lowest among 1X, 2X and 64X for which the
normalised reading times the candidate multiplier over 128 is at least 1024, and 128X
when none is. -/
def lowest_sufficient_gain (norm : Int) : Int :=
  if 1024 ≤ norm * 1 / 128 then BH1730_GAIN_1X
  else if 1024 ≤ norm * 2 / 128 then BH1730_GAIN_2X
  else if 1024 ≤ norm * 64 / 128 then BH1730_GAIN_64X
  else BH1730_GAIN_128X

end Bh1730

/-! DSI panel drivers (drivers/gpu/drm/panel/panel-jdi-lpm062m326a.c and
panel-nintendo-switch.c).

Every call into the regulator, GPIO, DSI and timer code is recorded, oldest first, with
the value it returned; the value the n-th call returns is taken from `answers`. -/

namespace Panel

/-- A call made by a panel driver into code outside it, with its return value where the
call has one. -/
inductive Event where
  | regulator_enable (supply : Nat) (ret : Int)
  | regulator_disable (supply : Nat) (ret : Int)
  | gpiod_set_value (value : Nat)
  | msleep (ms : Nat)
  | set_maximum_return_packet_size (size : Nat) (ret : Int)
  | dcs_read_display_id (ret : Int)
  | dcs_exit_sleep_mode (ret : Int)
  | dcs_write (cmd : Nat) (len : Int) (ret : Int)
  | dcs_set_column_address (first last : Int) (ret : Int)
  | dcs_set_page_address (first last : Int) (ret : Int)
  | dcs_set_tear_on (ret : Int)
  | dcs_set_pixel_format (ret : Int)
  | dcs_set_display_on (ret : Int)
  | dcs_set_display_off (ret : Int)
  | dcs_enter_sleep_mode (ret : Int)
  deriving DecidableEq, Repr

/-- State outside the panel object: what each call will return (`answers n` is the return
value of the call made when `n` calls have been recorded), the first byte of the display
ID the panel reports, and the calls made so far. -/
structure World where
  answers : Nat → Int
  display_id : Nat
  trace : List Event

/-- A call that returns a value: the value comes from `answers` and the call is
recorded with it. -/
def World.call (w : World) (mk : Int → Event) : Int × World :=
  (w.answers w.trace.length,
    { w with trace := w.trace ++ [mk (w.answers w.trace.length)] })

/-- A call whose result the driver does not receive. -/
def World.emit (w : World) (e : Event) : World :=
  { w with trace := w.trace ++ [e] }

/-- An entry of an `init_cmds` table. -/
structure init_cmd where
  cmd : Nat
  length : Int
  data : List Nat
  deriving DecidableEq, Repr

/-- The table `init_cmds_0x10` of panel-jdi-lpm062m326a.c, with its closing entry of
length -1. -/
def init_cmds_0x10 : List init_cmd :=
  [ ⟨0xb9, 3, [0xff, 0x83, 0x94]⟩,
    ⟨0xbd, 1, [0x00]⟩,
    ⟨0xd8, 0x18, [0xaa, 0xaa, 0xaa, 0xeb, 0xaa, 0xaa, 0xaa, 0xaa, 0xaa, 0xeb, 0xaa, 0xaa,
                  0xaa, 0xaa, 0xaa, 0xeb, 0xaa, 0xaa, 0xaa, 0xaa, 0xaa, 0xeb, 0xaa, 0xaa]⟩,
    ⟨0xbd, 1, [0x01]⟩,
    ⟨0xd8, 0x26, List.replicate 38 0xff⟩,
    ⟨0xbd, 1, [0x02]⟩,
    ⟨0xd8, 0xe, List.replicate 14 0xff⟩,
    ⟨0xbd, 1, [0x00]⟩,
    ⟨0xd9, 1, [0x06]⟩,
    ⟨0xb9, 3, [0x00, 0x00, 0x00]⟩,
    ⟨0x00, -1, [0x00]⟩ ]

/-- `default_mode.hdisplay`. -/
def default_mode_hdisplay : Int := 720

/-- `default_mode.vdisplay`. -/
def default_mode_vdisplay : Int := 1280

/-- The loop `while (init_cmds && init_cmds->length != -1)` of the init functions: every
entry before the closing one is written. The first failing write ends the loop with its
negative return value, with which the init function returns; a loop that runs through
yields 0. An `init_cmds` that is NULL is the empty list. -/
def write_init_cmds (w : World) : List init_cmd → Int × World
  | [] => (0, w)
  | c :: rest =>
    if c.length ≠ -1 then
      let r := w.call (Event.dcs_write c.cmd c.length)
      if r.1 < 0 then (r.1, r.2)
      else write_init_cmds r.2 rest
    else (0, w)

/-- The `struct jdi_panel`, as far as prepare and unprepare use it: whether a reset GPIO
and a backlight are present, the two flags, and the LPM bit of `dsi->mode_flags`. -/
structure jdi_panel where
  backlight : Bool
  reset_gpio : Bool
  prepared : Bool
  enabled : Bool
  mode_flags_lpm : Bool
  deriving DecidableEq, Repr

/-- The function `jdi_panel_init`. -/
def jdi_panel_init (jdi : jdi_panel) (w : World) : Int × jdi_panel × World :=
  let jdi := { jdi with mode_flags_lpm := true }
  let r := w.call (Event.set_maximum_return_packet_size 3)
  if r.1 < 0 then (r.1, jdi, r.2)
  else
    let r := r.2.call Event.dcs_read_display_id
    let display_id0 : Nat := if r.1 < 0 ∨ r.1 = 0 then 0 else r.2.display_id % 256
    let init_cmds : List init_cmd := if display_id0 = 0x10 then init_cmds_0x10 else []
    let w1 := r.2.emit (Event.msleep 10)
    let r := w1.call Event.dcs_exit_sleep_mode
    if r.1 < 0 then (r.1, jdi, r.2)
    else
      let r := write_init_cmds r.2 init_cmds
      if r.1 < 0 then (r.1, jdi, r.2)
      else
        let w3 := r.2.emit (Event.msleep 180)
        let r := w3.call (Event.dcs_set_column_address 0 (default_mode_hdisplay - 1))
        if r.1 < 0 then (r.1, jdi, r.2)
        else
          let r := r.2.call (Event.dcs_set_page_address 0 (default_mode_vdisplay - 1))
          if r.1 < 0 then (r.1, jdi, r.2)
          else
            let r := r.2.call Event.dcs_set_tear_on
            if r.1 < 0 then (r.1, jdi, r.2)
            else
              let r := r.2.call Event.dcs_set_pixel_format
              if r.1 < 0 then (r.1, jdi, r.2)
              else (0, jdi, r.2)

/-- The function `jdi_panel_on`. -/
def jdi_panel_on (jdi : jdi_panel) (w : World) : Int × jdi_panel × World :=
  let jdi := { jdi with mode_flags_lpm := true }
  let r := w.call Event.dcs_set_display_on
  if r.1 < 0 then (r.1, jdi, r.2)
  else (0, jdi, r.2.emit (Event.msleep 20))

/-- The function `jdi_panel_off`. -/
def jdi_panel_off (jdi : jdi_panel) (w : World) : Int × jdi_panel × World :=
  let jdi := { jdi with mode_flags_lpm := false }
  let r := w.call Event.dcs_set_display_off
  if r.1 < 0 then (r.1, jdi, r.2)
  else
    let r := r.2.call Event.dcs_enter_sleep_mode
    if r.1 < 0 then (r.1, jdi, r.2)
    else (0, jdi, r.2)

/-- The function `jdi_panel_unprepare`. -/
def jdi_panel_unprepare (jdi : jdi_panel) (w : World) : Int × jdi_panel × World :=
  if ¬ jdi.prepared then (0, jdi, w)
  else
    let r := jdi_panel_off jdi w
    if r.1 < 0 then (r.1, r.2.1, r.2.2)
    else
      let w1 := if r.2.1.reset_gpio then r.2.2.emit (Event.gpiod_set_value 0) else r.2.2
      let w2 := w1.emit (Event.msleep 10)
      let w3 := (w2.call (Event.regulator_disable 2)).2
      let w4 := w3.emit (Event.msleep 10)
      let w5 := (w4.call (Event.regulator_disable 1)).2
      (0, { r.2.1 with prepared := false }, w5)

/-- The label `poweroff1` of `jdi_panel_prepare`: disable the first supply and return
`ret`. -/
def jdi_panel_prepare_poweroff1 (ret : Int) (jdi : jdi_panel) (w : World) :
    Int × jdi_panel × World :=
  (ret, jdi, (w.call (Event.regulator_disable 1)).2)

/-- The label `reset` of `jdi_panel_prepare`: pull the reset line low when there is one,
disable the second supply and fall through to `poweroff1`. -/
def jdi_panel_prepare_reset (ret : Int) (jdi : jdi_panel) (w : World) :
    Int × jdi_panel × World :=
  let w1 := if jdi.reset_gpio then w.emit (Event.gpiod_set_value 0) else w
  jdi_panel_prepare_poweroff1 ret jdi (w1.call (Event.regulator_disable 2)).2

/-- The function `jdi_panel_prepare`. -/
def jdi_panel_prepare (jdi : jdi_panel) (w : World) :
    Int × jdi_panel × World :=
  if jdi.prepared then (0, jdi, w)
  else
    let r1 := w.call (Event.regulator_enable 1)
    if r1.1 < 0 then (r1.1, jdi, r1.2)
    else
      let w1 := r1.2.emit (Event.msleep 10)
      let r2 := w1.call (Event.regulator_enable 2)
      if r2.1 < 0 then jdi_panel_prepare_poweroff1 r2.1 jdi r2.2
      else
        let w2 := r2.2.emit (Event.msleep 10)
        let w3 :=
          if jdi.reset_gpio then
            (((w2.emit (Event.gpiod_set_value 0)).emit (Event.msleep 10)).emit
              (Event.gpiod_set_value 1)).emit (Event.msleep 60)
          else w2
        let ri := jdi_panel_init jdi w3
        if ri.1 < 0 then jdi_panel_prepare_reset ri.1 ri.2.1 ri.2.2
        else
          let ro := jdi_panel_on ri.2.1 ri.2.2
          if ro.1 < 0 then jdi_panel_prepare_reset ro.1 ro.2.1 ro.2.2
          else (0, { ro.2.1 with prepared := true }, ro.2.2)

/-- The `struct nintendo_switch_panel`, as far as prepare and unprepare use it. -/
structure nintendo_switch_panel where
  backlight : Bool
  reset_gpio : Bool
  prepared : Bool
  enabled : Bool
  mode_flags_lpm : Bool
  deriving DecidableEq, Repr

/-- The function `nintendo_switch_panel_init`; its `init_cmds` stays NULL for every
display ID. -/
def nintendo_switch_panel_init (nintendo_switch : nintendo_switch_panel) (w : World) :
    Int × nintendo_switch_panel × World :=
  let nintendo_switch := { nintendo_switch with mode_flags_lpm := true }
  let r := w.call (Event.set_maximum_return_packet_size 3)
  if r.1 < 0 then (r.1, nintendo_switch, r.2)
  else
    let r := r.2.call Event.dcs_read_display_id
    let init_cmds : List init_cmd := []
    let r := write_init_cmds r.2 init_cmds
    if r.1 < 0 then (r.1, nintendo_switch, r.2)
    else
      let r := r.2.call Event.dcs_exit_sleep_mode
      if r.1 < 0 then (r.1, nintendo_switch, r.2)
      else (0, nintendo_switch, r.2.emit (Event.msleep 180))

/-- The function `nintendo_switch_panel_on`. -/
def nintendo_switch_panel_on (nintendo_switch : nintendo_switch_panel) (w : World) :
    Int × nintendo_switch_panel × World :=
  let nintendo_switch := { nintendo_switch with mode_flags_lpm := true }
  let r := w.call Event.dcs_set_display_on
  if r.1 < 0 then (r.1, nintendo_switch, r.2)
  else (0, nintendo_switch, r.2.emit (Event.msleep 20))

/-- The function `nintendo_switch_panel_off`. -/
def nintendo_switch_panel_off (nintendo_switch : nintendo_switch_panel) (w : World) :
    Int × nintendo_switch_panel × World :=
  let nintendo_switch := { nintendo_switch with mode_flags_lpm := false }
  let r := w.call Event.dcs_set_display_off
  if r.1 < 0 then (r.1, nintendo_switch, r.2)
  else
    let r := r.2.call Event.dcs_enter_sleep_mode
    if r.1 < 0 then (r.1, nintendo_switch, r.2)
    else (0, nintendo_switch, r.2)

/-- The function `nintendo_switch_panel_unprepare`. -/
def nintendo_switch_panel_unprepare (nintendo_switch : nintendo_switch_panel) (w : World) :
    Int × nintendo_switch_panel × World :=
  if ¬ nintendo_switch.prepared then (0, nintendo_switch, w)
  else
    let r := nintendo_switch_panel_off nintendo_switch w
    if r.1 < 0 then (r.1, r.2.1, r.2.2)
    else
      let w1 := if r.2.1.reset_gpio then r.2.2.emit (Event.gpiod_set_value 0) else r.2.2
      let w2 := w1.emit (Event.msleep 10)
      let w3 := (w2.call (Event.regulator_disable 2)).2
      let w4 := w3.emit (Event.msleep 10)
      let w5 := (w4.call (Event.regulator_disable 1)).2
      (0, { r.2.1 with prepared := false }, w5)

/-- The label `poweroff1` of `nintendo_switch_panel_prepare`: disable the first supply and return
`ret`. -/
def nintendo_switch_panel_prepare_poweroff1 (ret : Int) (nintendo_switch : nintendo_switch_panel) (w : World) :
    Int × nintendo_switch_panel × World :=
  (ret, nintendo_switch, (w.call (Event.regulator_disable 1)).2)

/-- The label `reset` of `nintendo_switch_panel_prepare`: pull the reset line low when there is one,
disable the second supply and fall through to `poweroff1`. -/
def nintendo_switch_panel_prepare_reset (ret : Int) (nintendo_switch : nintendo_switch_panel) (w : World) :
    Int × nintendo_switch_panel × World :=
  let w1 := if nintendo_switch.reset_gpio then w.emit (Event.gpiod_set_value 0) else w
  nintendo_switch_panel_prepare_poweroff1 ret nintendo_switch (w1.call (Event.regulator_disable 2)).2

/-- The function `nintendo_switch_panel_prepare`. -/
def nintendo_switch_panel_prepare (nintendo_switch : nintendo_switch_panel) (w : World) :
    Int × nintendo_switch_panel × World :=
  if nintendo_switch.prepared then (0, nintendo_switch, w)
  else
    let r1 := w.call (Event.regulator_enable 1)
    if r1.1 < 0 then (r1.1, nintendo_switch, r1.2)
    else
      let w1 := r1.2.emit (Event.msleep 10)
      let r2 := w1.call (Event.regulator_enable 2)
      if r2.1 < 0 then nintendo_switch_panel_prepare_poweroff1 r2.1 nintendo_switch r2.2
      else
        let w2 := r2.2.emit (Event.msleep 10)
        let w3 :=
          if nintendo_switch.reset_gpio then
            (((w2.emit (Event.gpiod_set_value 0)).emit (Event.msleep 10)).emit
              (Event.gpiod_set_value 1)).emit (Event.msleep 60)
          else w2
        let ri := nintendo_switch_panel_init nintendo_switch w3
        if ri.1 < 0 then nintendo_switch_panel_prepare_reset ri.1 ri.2.1 ri.2.2
        else
          let ro := nintendo_switch_panel_on ri.2.1 ri.2.2
          if ro.1 < 0 then nintendo_switch_panel_prepare_reset ro.1 ro.2.1 ro.2.2
          else (0, { ro.2.1 with prepared := true }, ro.2.2)

/-! ## Sequences of calls and the regulator balance -/

/-- The number of successful `regulator_enable` calls on a supply not yet matched by a
`regulator_disable` call on it. -/
def unmatched (supply : Nat) : List Event → Int
  | [] => 0
  | Event.regulator_enable s ret :: rest =>
    (if s = supply ∧ 0 ≤ ret then 1 else 0) + unmatched supply rest
  | Event.regulator_disable s _ :: rest =>
    (if s = supply then -1 else 0) + unmatched supply rest
  | _ :: rest => unmatched supply rest

/-- A call of the panel interface. -/
inductive Op where
  | prepare
  | unprepare
  deriving DecidableEq, Repr

/-- A sequence of prepare and unprepare calls on a JDI panel. -/
def jdi_run : List Op → jdi_panel × World → jdi_panel × World
  | [], s => s
  | Op.prepare :: rest, s => jdi_run rest (jdi_panel_prepare s.1 s.2).2
  | Op.unprepare :: rest, s => jdi_run rest (jdi_panel_unprepare s.1 s.2).2

/-- A sequence of prepare and unprepare calls on a Nintendo Switch panel. -/
def nintendo_switch_run : List Op → nintendo_switch_panel × World →
    nintendo_switch_panel × World
  | [], s => s
  | Op.prepare :: rest, s =>
    nintendo_switch_run rest (nintendo_switch_panel_prepare s.1 s.2).2
  | Op.unprepare :: rest, s =>
    nintendo_switch_run rest (nintendo_switch_panel_unprepare s.1 s.2).2

/-- The balance the claim states: on both supplies the unmatched enables are 1 when
`prepared` is set and 0 when it is not. -/
def balanced (prepared : Bool) (w : World) : Prop :=
  unmatched 1 w.trace = (if prepared then 1 else 0) ∧
  unmatched 2 w.trace = (if prepared then 1 else 0)

end Panel

/-! PRIME import of the nouveau driver (drivers/gpu/drm/nouveau/nouveau_prime.c).

The DMA-BUF, TTM and GEM calls of `nouveau_gem_prime_import` are recorded, oldest first;
what the calls that can fail return is given by an `Env`. -/

namespace Nouveau

/-- A pointer that may carry an error (`ERR_PTR`, `IS_ERR`, `PTR_ERR`). -/
inductive ptr_or_err where
  | err (e : Int)
  | ptr (p : Nat)
  deriving DecidableEq, Repr

/-- A `struct dma_buf`, as far as the import reads and changes it: whether its ops are
`nouveau_gem_prime_dmabuf_ops`, the GEM object in `priv` and the device of that object,
the size, the reference count that `get_dma_buf` and `dma_buf_put` act on, the
attachments, and the mappings (attachment, sg table) now in place. -/
structure dma_buf where
  ops_nouveau : Bool
  priv : Nat
  priv_dev : Nat
  size : Nat
  refcount : Nat
  attachments : List Nat
  mappings : List (Nat × Nat)
  deriving DecidableEq, Repr

/-- A call made by `nouveau_gem_prime_import`. -/
inductive Event where
  | drm_gem_object_get (obj : Nat)
  | dma_buf_attach (dev : Nat) (result : ptr_or_err)
  | get_dma_buf
  | dma_buf_map_attachment (attach : Nat) (result : ptr_or_err)
  | ww_mutex_lock
  | ww_mutex_unlock
  | nouveau_bo_new (size sgt : Nat) (ret : Int)
  | drm_gem_object_init (bo : Nat) (ret : Int)
  | nouveau_bo_ref_null (bo : Nat)
  | dma_buf_unmap_attachment (attach sgt : Nat)
  | dma_buf_detach (attach : Nat)
  | dma_buf_put
  deriving DecidableEq, Repr

/-- The buffer and the calls made so far. -/
structure World where
  buf : dma_buf
  trace : List Event
  deriving DecidableEq, Repr

/-- What the calls that can fail answer during one import: the attachment or error of
`dma_buf_attach`, the sg table or error of `dma_buf_map_attachment`, the return value of
`nouveau_bo_new` and the buffer object it creates, the return value of
`drm_gem_object_init`. -/
structure Env where
  attach : ptr_or_err
  map : ptr_or_err
  bo_new_ret : Int
  bo : Nat
  gem_init_ret : Int
  deriving DecidableEq, Repr

/-! ## The DMA-BUF calls -/

/-- Modelled from the spec: `dma_buf_attach` (linux/dma-buf.h is not among the sources),
part of the "DMA-BUF attach/detach plumbing": on success the attachment joins the
attachments of the buffer, on failure the buffer is as it was. -/
def dma_buf_attach (w : World) (dev : Nat) (result : ptr_or_err) : World :=
  match result with
  | .err e => { w with trace := w.trace ++ [Event.dma_buf_attach dev (.err e)] }
  | .ptr a =>
    { buf := { w.buf with attachments := a :: w.buf.attachments }
      trace := w.trace ++ [Event.dma_buf_attach dev (.ptr a)] }

/-- Modelled from the spec: `get_dma_buf` (linux/dma-buf.h is not among the sources):
takes one reference on the buffer. -/
def get_dma_buf (w : World) : World :=
  { buf := { w.buf with refcount := w.buf.refcount + 1 }
    trace := w.trace ++ [Event.get_dma_buf] }

/-- Modelled from the spec: `dma_buf_map_attachment` (linux/dma-buf.h is not among the
sources): on success the mapping is in place, on failure nothing is. -/
def dma_buf_map_attachment (w : World) (attach : Nat) (result : ptr_or_err) : World :=
  match result with
  | .err e => { w with trace := w.trace ++ [Event.dma_buf_map_attachment attach (.err e)] }
  | .ptr sgt =>
    { buf := { w.buf with mappings := (attach, sgt) :: w.buf.mappings }
      trace := w.trace ++ [Event.dma_buf_map_attachment attach (.ptr sgt)] }

/-- Modelled from the spec: `dma_buf_unmap_attachment` (linux/dma-buf.h is not among the
sources): the mapping is removed. -/
def dma_buf_unmap_attachment (w : World) (attach sgt : Nat) : World :=
  { buf := { w.buf with mappings := w.buf.mappings.erase (attach, sgt) }
    trace := w.trace ++ [Event.dma_buf_unmap_attachment attach sgt] }

/-- Modelled from the spec: `dma_buf_detach` (linux/dma-buf.h is not among the sources):
the attachment leaves the attachments of the buffer. -/
def dma_buf_detach (w : World) (attach : Nat) : World :=
  { buf := { w.buf with attachments := w.buf.attachments.erase attach }
    trace := w.trace ++ [Event.dma_buf_detach attach] }

/-- Modelled from the spec: `dma_buf_put` (linux/dma-buf.h is not among the sources):
drops one reference on the buffer. -/
def dma_buf_put (w : World) : World :=
  { buf := { w.buf with refcount := w.buf.refcount - 1 }
    trace := w.trace ++ [Event.dma_buf_put] }

/-- A call that does not touch the buffer. -/
def World.emit (w : World) (e : Event) : World :=
  { w with trace := w.trace ++ [e] }

/-! ## nouveau_prime.c -/

/-- The label `detach` of `nouveau_gem_prime_import`: detach, drop the reference, return
`ERR_PTR(ret)`. -/
def nouveau_gem_prime_import_detach (w : World) (ret : Int) (attach : Nat) :
    ptr_or_err × World :=
  (ptr_or_err.err ret, dma_buf_put (dma_buf_detach w attach))

/-- The label `unmap` of `nouveau_gem_prime_import`: unmap the attachment and fall
through to `detach`. -/
def nouveau_gem_prime_import_unmap (w : World) (ret : Int) (attach sgt : Nat) :
    ptr_or_err × World :=
  nouveau_gem_prime_import_detach (dma_buf_unmap_attachment w attach sgt) ret attach

/-- The label `unref` of `nouveau_gem_prime_import`: drop the buffer object and fall
through to `unmap`. -/
def nouveau_gem_prime_import_unref (w : World) (ret : Int) (attach sgt bo : Nat) :
    ptr_or_err × World :=
  nouveau_gem_prime_import_unmap (w.emit (Event.nouveau_bo_ref_null bo)) ret attach sgt

/-- The function `nouveau_gem_prime_import` for device `dev`: the pointer it returns (a
GEM object or `ERR_PTR`) and the world afterwards. -/
def nouveau_gem_prime_import (w : World) (env : Env) (dev : Nat) : ptr_or_err × World :=
  if w.buf.ops_nouveau = true ∧ w.buf.priv_dev = dev then
    (ptr_or_err.ptr w.buf.priv, w.emit (Event.drm_gem_object_get w.buf.priv))
  else
    match env.attach with
    | .err e => (ptr_or_err.err e, dma_buf_attach w dev (.err e))
    | .ptr attach =>
      let w1 := get_dma_buf (dma_buf_attach w dev (.ptr attach))
      match env.map with
      | .err e =>
        nouveau_gem_prime_import_detach (dma_buf_map_attachment w1 attach (.err e)) e attach
      | .ptr sgt =>
        let w2 := dma_buf_map_attachment w1 attach (.ptr sgt)
        let w3 := ((w2.emit Event.ww_mutex_lock).emit
          (Event.nouveau_bo_new w2.buf.size sgt env.bo_new_ret)).emit Event.ww_mutex_unlock
        if env.bo_new_ret ≠ 0 then
          nouveau_gem_prime_import_unmap w3 env.bo_new_ret attach sgt
        else
          let w4 := w3.emit (Event.drm_gem_object_init env.bo env.gem_init_ret)
          if env.gem_init_ret ≠ 0 then
            nouveau_gem_prime_import_unref w4 env.gem_init_ret attach sgt env.bo
          else (ptr_or_err.ptr env.bo, w4)

end Nouveau

namespace Host1x

/-! ## Lemmas on the embedding -/

theorem ops_eq_host1x_iff (fence : dma_fence) :
    fence.ops = fence_ops.host1x_fence_ops ↔ ∃ f, fence = dma_fence.host1x f := by
  cases fence <;> simp [dma_fence.ops]

theorem is_waitable_loop_iff (fences : List dma_fence) :
    host1x_fence_is_waitable_loop fences = true ↔
      ∀ m ∈ fences, m.ops = fence_ops.host1x_fence_ops := by
  induction fences with
  | nil => simp [host1x_fence_is_waitable_loop]
  | cons m rest ih =>
    by_cases hm : m.ops = fence_ops.host1x_fence_ops
    · simp [host1x_fence_is_waitable_loop, hm, ih]
    · simp [host1x_fence_is_waitable_loop, hm]

theorem is_waitable_loop_map (fs : List host1x_fence) :
    host1x_fence_is_waitable_loop (fs.map dma_fence.host1x) = true := by
  rw [is_waitable_loop_iff]
  intro m hm
  obtain ⟨f, -, rfl⟩ := List.mem_map.mp hm
  rfl

theorem is_expired_emit (w : World) (e : Event) (sp : host1x_syncpt) (thresh : Nat) :
    host1x_syncpt_is_expired (w.emit e) sp thresh = host1x_syncpt_is_expired w sp thresh :=
  rfl

/-- The wait instruction `host1x_fence_wait_single` pushes for a fence. -/
theorem wait_single_eq (w : World) (f : host1x_fence) (host : host1x)
    (ch : host1x_channel) :
    host1x_fence_wait_single w f host ch =
      { w with trace := w.trace ++
          (if host1x_syncpt_is_expired w f.syncpt f.threshold then []
           else [Event.push_wait host.id ch.id f.syncpt.id f.threshold]) } := by
  unfold host1x_fence_wait_single
  split <;> simp [host1x_hw_channel_push_wait, World.emit]

theorem wait_loop_native (fs : List host1x_fence) (host : host1x) (ch : host1x_channel) :
    ∀ w : World, host1x_fence_wait_loop w host ch (fs.map dma_fence.host1x) =
      some { w with trace := w.trace ++
        ((fs.filter (fun f => !(host1x_syncpt_is_expired w f.syncpt f.threshold))).map
          (fun f => Event.push_wait host.id ch.id f.syncpt.id f.threshold)) } := by
  induction fs with
  | nil => intro w; simp [host1x_fence_wait_loop]
  | cons f rest ih =>
    intro w
    simp only [List.map_cons, host1x_fence_wait_loop, to_host1x_fence]
    rw [ih, wait_single_eq]
    by_cases h : f.threshold ≤ w.syncpt_val f.syncpt.id
    · simp [host1x_syncpt_is_expired, h, List.filter_cons]
    · simp [host1x_syncpt_is_expired, h, List.filter_cons]

theorem members_native (fences : List dma_fence)
    (h : ∀ m ∈ fences, m.ops = fence_ops.host1x_fence_ops) :
    ∃ fs : List host1x_fence, fences = fs.map dma_fence.host1x := by
  induction fences with
  | nil => exact ⟨[], rfl⟩
  | cons m rest ih =>
    obtain ⟨f, rfl⟩ := (ops_eq_host1x_iff m).mp (h m (List.mem_cons_self _ _))
    obtain ⟨fs, rfl⟩ := ih (fun x hx => h x (List.mem_cons_of_mem _ hx))
    exact ⟨f :: fs, rfl⟩

theorem registrations_append (l1 l2 : List Event) :
    registrations (l1 ++ l2) = registrations l1 ++ registrations l2 := by
  induction l1 with
  | nil => rfl
  | cons e rest ih => cases e <;> simp [registrations, ih]

theorem signaled_step (s t : World × host1x_fence) (h : counter_only_increases s t)
    (hs : (host1x_fence_signaled s.1 s.2).1 = true) :
    (host1x_fence_signaled t.1 t.2).1 = true := by
  obtain ⟨hsp, hth, hle⟩ := h
  simp only [host1x_fence_signaled, host1x_syncpt_is_expired, decide_eq_true_eq] at hs ⊢
  rw [hsp, hth]
  exact le_trans hs hle

theorem unregistrations_append (l1 l2 : List Event) :
    unregistrations (l1 ++ l2) = unregistrations l1 ++ unregistrations l2 := by
  induction l1 with
  | nil => rfl
  | cons e rest ih => cases e <;> simp [unregistrations, ih]

theorem freed_append (l1 l2 : List Event) :
    freed (l1 ++ l2) = freed l1 ++ freed l2 := by
  induction l1 with
  | nil => rfl
  | cons e rest ih => cases e <;> simp [freed, ih]

theorem is_waitable_array_native (fs : List host1x_fence) :
    host1x_fence_is_waitable (dma_fence.array (fs.map dma_fence.host1x)) = true := by
  simpa [host1x_fence_is_waitable, to_dma_fence_array] using is_waitable_loop_map fs

/-- The instructions `host1x_fence_wait` pushes for a join of native objects. -/
theorem wait_array_native (w : World) (fs : List host1x_fence) (host : host1x)
    (ch : host1x_channel) :
    host1x_fence_wait w (dma_fence.array (fs.map dma_fence.host1x)) host ch =
      some (0, { w with trace := w.trace ++
        ((fs.filter (fun f => !(host1x_syncpt_is_expired w f.syncpt f.threshold))).map
          (fun f => Event.push_wait host.id ch.id f.syncpt.id f.threshold)) }) := by
  simp only [host1x_fence_wait, host1x_fence_is_waitable, to_dma_fence_array,
    is_waitable_loop_map, wait_loop_native]
  simp

theorem snprintf_d_exact (id : Nat) (h : id < 10 ^ 9) : snprintf_d 10 id = Nat.repr id := by
  have hlen : (Nat.repr id).data.length ≤ 9 := Nat.repr_length id 9 (by decide) h
  have h32 : id % 2 ^ 32 = id := Nat.mod_eq_of_lt (by omega)
  have h31 : id < 2 ^ 31 := by omega
  unfold snprintf_d
  simp only [h32, h31, if_true]
  show String.mk ((Nat.repr id).data.take 9) = Nat.repr id
  rw [List.take_of_length_le hlen]

theorem create_timeline_name (w : World) (env : Env) (host : host1x)
    (syncpt : host1x_syncpt) (threshold : Nat) (f : host1x_fence)
    (h : (host1x_fence_create w env host syncpt threshold).1 = some f) :
    f.timeline_name = snprintf_d 10 syncpt.id := by
  obtain ⟨kf, kw, err⟩ := env
  cases kf with
  | none => simp [host1x_fence_create] at h
  | some faddr =>
    cases kw with
    | none => simp [host1x_fence_create] at h
    | some waiter =>
      by_cases he : err = 0
      · simp [host1x_fence_create, host1x_intr_add_action, he] at h
        rw [← h]
      · simp [host1x_fence_create, host1x_intr_add_action, he] at h

/-! ## The hardware-wait fast path -/

/-- C1 (as the claim states it, refuted): a join whose one member is itself a join of one
native object is hardware-waitable in the specification's recursive sense, and
`host1x_fence_is_waitable` returns false for it. -/
theorem C1_nested_join_not_waitable :
    spec_is_hardware_waitable
        (dma_fence.array [dma_fence.array [dma_fence.host1x (sample_fence 1 2)]]) = true ∧
    host1x_fence_is_waitable
        (dma_fence.array [dma_fence.array [dma_fence.host1x (sample_fence 1 2)]]) = false := by
  decide

/-- C1 (amended): `host1x_fence_is_waitable` returns true exactly when the completion is
a single object of this subsystem (its ops are `host1x_fence_ops`) or a join every
direct member of which is such an object; it returns false for every foreign
completion, and for a join that has a join among its members. -/
theorem C1_is_waitable_iff_flat :
    (∀ fence : dma_fence, host1x_fence_is_waitable fence = true ↔
      (fence.ops = fence_ops.host1x_fence_ops ∨
        ∃ fences, to_dma_fence_array fence = some fences ∧
          ∀ m ∈ fences, m.ops = fence_ops.host1x_fence_ops)) ∧
    (∀ table, host1x_fence_is_waitable (dma_fence.foreign table) = false) ∧
    (∀ pre inner post,
      host1x_fence_is_waitable (dma_fence.array (pre ++ dma_fence.array inner :: post))
        = false) := by
  refine ⟨?_, ?_, ?_⟩
  · intro fence
    cases fence with
    | host1x f => simp [host1x_fence_is_waitable, to_dma_fence_array, dma_fence.ops]
    | array fences =>
      simp [host1x_fence_is_waitable, to_dma_fence_array, dma_fence.ops,
        is_waitable_loop_iff]
    | foreign t => simp [host1x_fence_is_waitable, to_dma_fence_array, dma_fence.ops]
  · intro t
    simp [host1x_fence_is_waitable, to_dma_fence_array, dma_fence.ops]
  · intro pre inner post
    have h : ¬ (host1x_fence_is_waitable_loop (pre ++ dma_fence.array inner :: post)
        = true) := by
      rw [is_waitable_loop_iff]
      intro hall
      have := hall (dma_fence.array inner) (by simp)
      simp [dma_fence.ops] at this
    simpa [host1x_fence_is_waitable, to_dma_fence_array] using h

/-- C2: `host1x_fence_is_waitable` is true for every join whose members are all native
objects, in particular for a join of two, true for every lone native object, and
false for every join with a member that is not native, whatever its position. -/
theorem C2_is_waitable_cases :
    (∀ fs : List host1x_fence,
      host1x_fence_is_waitable (dma_fence.array (fs.map dma_fence.host1x)) = true) ∧
    (∀ f g : host1x_fence,
      host1x_fence_is_waitable
        (dma_fence.array [dma_fence.host1x f, dma_fence.host1x g]) = true) ∧
    (∀ f : host1x_fence, host1x_fence_is_waitable (dma_fence.host1x f) = true) ∧
    (∀ (pre post : List dma_fence) (m : dma_fence),
      m.ops ≠ fence_ops.host1x_fence_ops →
      host1x_fence_is_waitable (dma_fence.array (pre ++ m :: post)) = false) := by
  refine ⟨?_, ?_, ?_, ?_⟩
  · intro fs
    simpa [host1x_fence_is_waitable, to_dma_fence_array] using is_waitable_loop_map fs
  · intro f g
    simpa [host1x_fence_is_waitable, to_dma_fence_array] using is_waitable_loop_map [f, g]
  · intro f
    simp [host1x_fence_is_waitable, to_dma_fence_array, dma_fence.ops]
  · intro pre post m hm
    have h : ¬ (host1x_fence_is_waitable_loop (pre ++ m :: post) = true) := by
      rw [is_waitable_loop_iff]
      intro hall
      exact hm (hall m (by simp))
    simpa [host1x_fence_is_waitable, to_dma_fence_array] using h

/-- C2 at a concrete join: a native member followed by a foreign one. -/
theorem C2_is_waitable_cases_witness :
    host1x_fence_is_waitable
      (dma_fence.array ([dma_fence.host1x (sample_fence 1 2)] ++
        dma_fence.foreign 7 :: [])) = false :=
  C2_is_waitable_cases.2.2.2 [dma_fence.host1x (sample_fence 1 2)] []
    (dma_fence.foreign 7) (by decide)

/-- C3: `host1x_fence_wait` returns, and its return value is -EINVAL exactly when
`host1x_fence_is_waitable` is false and 0 otherwise, whatever the counters hold. -/
theorem C3_wait_einval_iff_not_waitable (w : World) (fence : dma_fence) (host : host1x)
    (ch : host1x_channel) :
    ∃ ret w1, host1x_fence_wait w fence host ch = some (ret, w1) ∧
      (ret = -EINVAL ↔ host1x_fence_is_waitable fence = false) ∧
      ret = (if host1x_fence_is_waitable fence = true then 0 else -EINVAL) := by
  cases fence with
  | host1x f =>
    refine ⟨0, host1x_fence_wait_single w f host ch, ?_, ?_, ?_⟩ <;>
      simp [host1x_fence_wait, host1x_fence_is_waitable, to_dma_fence_array,
        to_host1x_fence, dma_fence.ops, EINVAL]
  | foreign t =>
    refine ⟨-EINVAL, w, ?_, ?_, ?_⟩ <;>
      simp [host1x_fence_wait, host1x_fence_is_waitable, to_dma_fence_array,
        dma_fence.ops]
  | array fences =>
    by_cases h : host1x_fence_is_waitable_loop fences = true
    · obtain ⟨fs, rfl⟩ := members_native fences ((is_waitable_loop_iff fences).mp h)
      refine ⟨0, { w with trace := w.trace ++
        ((fs.filter (fun f => !(host1x_syncpt_is_expired w f.syncpt f.threshold))).map
          (fun f => Event.push_wait host.id ch.id f.syncpt.id f.threshold)) }, ?_, ?_, ?_⟩
      · simp only [host1x_fence_wait, host1x_fence_is_waitable, to_dma_fence_array, h,
          wait_loop_native]
        simp
      · simp [host1x_fence_is_waitable, to_dma_fence_array, h, EINVAL]
      · simp [host1x_fence_is_waitable, to_dma_fence_array, h]
    · refine ⟨-EINVAL, w, ?_, ?_, ?_⟩ <;>
        simp [host1x_fence_wait, host1x_fence_is_waitable, to_dma_fence_array, h]

/-- C4: on a single native object `host1x_fence_wait` succeeds and leaves the channel as
it was when the object is already satisfied, and pushes exactly one wait instruction,
carrying the counter id and the threshold, when it is not. -/
theorem C4_wait_single_object (w : World) (f : host1x_fence) (host : host1x)
    (ch : host1x_channel) :
    ((host1x_fence_signaled w f).1 = true →
      host1x_fence_wait w (dma_fence.host1x f) host ch = some (0, w)) ∧
    ((host1x_fence_signaled w f).1 = false →
      host1x_fence_wait w (dma_fence.host1x f) host ch =
        some (0, { w with trace := w.trace ++
          [Event.push_wait host.id ch.id f.syncpt.id f.threshold] })) := by
  constructor <;> intro h <;>
    simp only [host1x_fence_signaled] at h <;>
    simp [host1x_fence_wait, host1x_fence_is_waitable, to_dma_fence_array,
      to_host1x_fence, dma_fence.ops, wait_single_eq, h]

/-- C4 at concrete objects: counter 1 stands at 5; a fence for threshold 3 pushes
nothing, a fence for threshold 10 pushes one wait for (1, 10). -/
theorem C4_wait_single_object_witness :
    ((host1x_fence_signaled (sample_world 5) (sample_fence 1 3)).1 = true ∧
      host1x_fence_wait (sample_world 5) (dma_fence.host1x (sample_fence 1 3)) ⟨0, 0⟩ ⟨4⟩
        = some (0, sample_world 5)) ∧
    ((host1x_fence_signaled (sample_world 5) (sample_fence 1 10)).1 = false ∧
      host1x_fence_wait (sample_world 5) (dma_fence.host1x (sample_fence 1 10)) ⟨0, 0⟩ ⟨4⟩
        = some (0, { sample_world 5 with trace := (sample_world 5).trace ++
            [Event.push_wait 0 4 1 10] })) :=
  ⟨⟨by decide, (C4_wait_single_object (sample_world 5) (sample_fence 1 3) ⟨0, 0⟩ ⟨4⟩).1
      (by decide)⟩,
   ⟨by decide, (C4_wait_single_object (sample_world 5) (sample_fence 1 10) ⟨0, 0⟩ ⟨4⟩).2
      (by decide)⟩⟩

/-- C5: on a join of native objects `host1x_fence_wait` succeeds and the instructions it
pushes are exactly the waits (counter id, threshold) of the members not yet satisfied,
in member order; a join of two unsatisfied members yields two instructions, first the
first member's. -/
theorem C5_wait_join_in_member_order (w : World) (host : host1x) (ch : host1x_channel) :
    (∀ fs : List host1x_fence,
      host1x_fence_wait w (dma_fence.array (fs.map dma_fence.host1x)) host ch =
        some (0, { w with trace := w.trace ++
          ((fs.filter (fun f => !(host1x_fence_signaled w f).1)).map
            (fun f => Event.push_wait host.id ch.id f.syncpt.id f.threshold)) })) ∧
    (∀ f g : host1x_fence,
      (host1x_fence_signaled w f).1 = false → (host1x_fence_signaled w g).1 = false →
      host1x_fence_wait w (dma_fence.array [dma_fence.host1x f, dma_fence.host1x g])
          host ch =
        some (0, { w with trace := w.trace ++
          [Event.push_wait host.id ch.id f.syncpt.id f.threshold,
           Event.push_wait host.id ch.id g.syncpt.id g.threshold] })) := by
  have key : ∀ fs : List host1x_fence,
      host1x_fence_wait w (dma_fence.array (fs.map dma_fence.host1x)) host ch =
        some (0, { w with trace := w.trace ++
          ((fs.filter (fun f => !(host1x_fence_signaled w f).1)).map
            (fun f => Event.push_wait host.id ch.id f.syncpt.id f.threshold)) }) := by
    intro fs
    simp only [host1x_fence_wait, host1x_fence_is_waitable, to_dma_fence_array,
      is_waitable_loop_map, wait_loop_native, host1x_fence_signaled]
    simp
  refine ⟨key, ?_⟩
  intro f g hf hg
  have h2 := key [f, g]
  simp only [List.map_cons, List.map_nil] at h2
  rw [h2]
  simp [List.filter_cons, hf, hg]

/-- C5 at a concrete join: with every counter at 5, the members (1, 10) and (2, 7) are
both unsatisfied and two waits are pushed, (1, 10) first. -/
theorem C5_wait_join_in_member_order_witness :
    (host1x_fence_signaled (sample_world 5) (sample_fence 1 10)).1 = false ∧
    (host1x_fence_signaled (sample_world 5) (sample_fence 2 7)).1 = false ∧
    host1x_fence_wait (sample_world 5)
        (dma_fence.array [dma_fence.host1x (sample_fence 1 10),
          dma_fence.host1x (sample_fence 2 7)]) ⟨0, 0⟩ ⟨4⟩ =
      some (0, { sample_world 5 with trace := (sample_world 5).trace ++
        [Event.push_wait 0 4 1 10, Event.push_wait 0 4 2 7] }) :=
  ⟨by decide, by decide,
    (C5_wait_join_in_member_order (sample_world 5) ⟨0, 0⟩ ⟨4⟩).2 (sample_fence 1 10)
      (sample_fence 2 7) (by decide) (by decide)⟩

/-! ## Creation and the satisfied query -/

/-- C6 (as the claim states it, refuted): counter 0 already stands at 3 when a fence for
(0, 3) is created; the object is returned, and `host1x_fence_create` has made one
registration with the interrupt code, not zero. -/
theorem C6_create_registers_though_expired :
    host1x_syncpt_is_expired (sample_world 3) ⟨0⟩ 3 = true ∧
    (host1x_fence_create (sample_world 3) ⟨some 100, some 200, 0⟩ ⟨0, 0⟩ ⟨0⟩ 3).1.isSome
      = true ∧
    registrations
      (host1x_fence_create (sample_world 3) ⟨some 100, some 200, 0⟩ ⟨0, 0⟩ ⟨0⟩ 3).2.trace
      = [(0, 3)] ∧
    registrations
      (host1x_fence_create (sample_world 3) ⟨some 100, some 200, 0⟩ ⟨0, 0⟩ ⟨0⟩ 3).2.trace
      ≠ [] := by
  decide

/-- C6 (amended): when the counter has already reached the threshold at the call of
`host1x_fence_create`, an object that create returns reports satisfied immediately;
create registers all the same: whenever both allocations succeed, it records exactly
one registration, for that counter and threshold. -/
theorem C6_create_when_expired (w : World) (env : Env) (host : host1x)
    (syncpt : host1x_syncpt) (threshold : Nat)
    (hexp : host1x_syncpt_is_expired w syncpt threshold = true) :
    (∀ f, (host1x_fence_create w env host syncpt threshold).1 = some f →
      (host1x_fence_signaled (host1x_fence_create w env host syncpt threshold).2 f).1
        = true) ∧
    (env.kzalloc_f.isSome = true → env.kzalloc_waiter.isSome = true →
      registrations (host1x_fence_create w env host syncpt threshold).2.trace =
        registrations w.trace ++ [(syncpt.id, threshold)]) := by
  obtain ⟨kf, kw, err⟩ := env
  cases kf with
  | none => simp [host1x_fence_create]
  | some faddr =>
    cases kw with
    | none => simp [host1x_fence_create]
    | some waiter =>
      by_cases he : err = 0
      · subst he
        refine ⟨?_, ?_⟩
        · intro f hf
          simp only [host1x_fence_create, host1x_intr_add_action] at hf ⊢
          simp at hf
          subst hf
          simpa [host1x_fence_signaled, host1x_syncpt_is_expired, World.emit] using hexp
        · intro _ _
          simp [host1x_fence_create, host1x_intr_add_action, World.emit,
            registrations_append, registrations]
      · refine ⟨?_, ?_⟩
        · intro f hf
          simp [host1x_fence_create, host1x_intr_add_action, he] at hf
        · intro _ _
          simp [host1x_fence_create, host1x_intr_add_action, he, World.emit,
            registrations_append, registrations, dma_fence_put, host1x_fence_release,
            kfree]

/-- C6 (amended) at the concrete creation of a fence for (0, 3) with counter 0 at 3. -/
theorem C6_create_when_expired_witness :
    host1x_syncpt_is_expired (sample_world 3) ⟨0⟩ 3 = true ∧
    (∀ f, (host1x_fence_create (sample_world 3) ⟨some 100, some 200, 0⟩ ⟨0, 0⟩ ⟨0⟩ 3).1
        = some f →
      (host1x_fence_signaled
        (host1x_fence_create (sample_world 3) ⟨some 100, some 200, 0⟩ ⟨0, 0⟩ ⟨0⟩ 3).2 f).1
        = true) ∧
    registrations
      (host1x_fence_create (sample_world 3) ⟨some 100, some 200, 0⟩ ⟨0, 0⟩ ⟨0⟩ 3).2.trace
      = registrations (sample_world 3).trace ++ [(0, 3)] :=
  ⟨by decide,
   (C6_create_when_expired (sample_world 3) ⟨some 100, some 200, 0⟩ ⟨0, 0⟩ ⟨0⟩ 3
      (by decide)).1,
   (C6_create_when_expired (sample_world 3) ⟨some 100, some 200, 0⟩ ⟨0, 0⟩ ⟨0⟩ 3
      (by decide)).2 (by decide) (by decide)⟩

/-- C7: a `host1x_fence_create` whose two allocations succeed registers with the
interrupt code exactly once, during the call, and that registration carries the
object's counter id and its threshold. -/
theorem C7_create_registers_once (w : World) (env : Env) (host : host1x)
    (syncpt : host1x_syncpt) (threshold : Nat)
    (hf : env.kzalloc_f.isSome = true) (hw : env.kzalloc_waiter.isSome = true) :
    ∃ faddr waiter rest,
      (host1x_fence_create w env host syncpt threshold).2.trace =
        w.trace ++
          Event.intr_add_action host.id syncpt.id threshold faddr waiter :: rest ∧
      registrations rest = [] ∧
      registrations (host1x_fence_create w env host syncpt threshold).2.trace =
        registrations w.trace ++ [(syncpt.id, threshold)] := by
  obtain ⟨kf, kw, err⟩ := env
  cases kf with
  | none => simp at hf
  | some faddr =>
    cases kw with
    | none => simp at hw
    | some waiter =>
      by_cases he : err = 0
      · refine ⟨faddr, waiter, [], ?_, rfl, ?_⟩ <;>
          simp [host1x_fence_create, host1x_intr_add_action, he, World.emit,
            registrations_append, registrations]
      · refine ⟨faddr, waiter, [Event.kfree waiter, Event.kfree faddr], ?_, rfl, ?_⟩ <;>
          simp [host1x_fence_create, host1x_intr_add_action, he, World.emit,
            registrations_append, registrations, dma_fence_put, host1x_fence_release,
            kfree]

/-- C7 at a concrete creation: a fence for (2, 9) on an empty trace. -/
theorem C7_create_registers_once_witness :
    ∃ faddr waiter rest,
      (host1x_fence_create (sample_world 5) ⟨some 100, some 200, 0⟩ ⟨0, 0⟩ ⟨2⟩ 9).2.trace =
        (sample_world 5).trace ++ Event.intr_add_action 0 2 9 faddr waiter :: rest ∧
      registrations rest = [] ∧
      registrations
          (host1x_fence_create (sample_world 5) ⟨some 100, some 200, 0⟩ ⟨0, 0⟩ ⟨2⟩ 9).2.trace
        = registrations (sample_world 5).trace ++ [(2, 9)] :=
  C7_create_registers_once (sample_world 5) ⟨some 100, some 200, 0⟩ ⟨0, 0⟩ ⟨2⟩ 9
    (by decide) (by decide)

/-- C8: `host1x_fence_create` returns an object exactly when both allocations succeed and
the registration succeeds; when the object allocation, the waiter allocation or the
registration fails it returns NULL. -/
theorem C8_create_handle_iff (w : World) (env : Env) (host : host1x)
    (syncpt : host1x_syncpt) (threshold : Nat) :
    ((host1x_fence_create w env host syncpt threshold).1.isSome = true ↔
      (env.kzalloc_f.isSome = true ∧ env.kzalloc_waiter.isSome = true ∧
        env.intr_add_action_err = 0)) ∧
    ((env.kzalloc_f = none ∨ env.kzalloc_waiter = none ∨ env.intr_add_action_err ≠ 0) ↔
      (host1x_fence_create w env host syncpt threshold).1 = none) := by
  obtain ⟨kf, kw, err⟩ := env
  cases kf with
  | none => simp [host1x_fence_create]
  | some faddr =>
    cases kw with
    | none => simp [host1x_fence_create]
    | some waiter =>
      by_cases he : err = 0
      · simp [host1x_fence_create, host1x_intr_add_action, he]
      · simp [host1x_fence_create, host1x_intr_add_action, he]

/-- C9: `host1x_fence_signaled` returns what the Counter Registry reports, true exactly
when the counter has reached or passed the threshold; it leaves the object (counter,
threshold, label, registration handle) and the world (channel, registrations) as they
were, so a second call returns the same value. -/
theorem C9_signaled_pure (w : World) (f : host1x_fence) :
    (host1x_fence_signaled w f).1 = host1x_syncpt_is_expired w f.syncpt f.threshold ∧
    ((host1x_fence_signaled w f).1 = true ↔ f.threshold ≤ w.syncpt_val f.syncpt.id) ∧
    (host1x_fence_signaled w f).2.1 = f ∧
    (host1x_fence_signaled w f).2.2 = w ∧
    (host1x_fence_signaled (host1x_fence_signaled w f).2.2
        (host1x_fence_signaled w f).2.1).1 = (host1x_fence_signaled w f).1 := by
  simp [host1x_fence_signaled, host1x_syncpt_is_expired]

/-- C10: along every run in which the counter of a fence object only increases, once
`host1x_fence_signaled` has returned true it returns true at every later point. -/
theorem C10_signaled_monotone (run : Nat → World × host1x_fence)
    (hrun : ∀ n, counter_only_increases (run n) (run (n + 1)))
    (i j : Nat) (hij : i ≤ j)
    (hsig : (host1x_fence_signaled (run i).1 (run i).2).1 = true) :
    (host1x_fence_signaled (run j).1 (run j).2).1 = true := by
  induction j, hij using Nat.le_induction with
  | base => exact hsig
  | succ n _ ih => exact signaled_step (run n) (run (n + 1)) (hrun n) ih

/-- C10 on a concrete run: counter 1 goes 5, 6, 7, ...; the fence for (1, 7) is satisfied
at step 2 and still at step 9. -/
theorem C10_signaled_monotone_witness :
    (∀ n, counter_only_increases
      ((fun k => (sample_world (k + 5), sample_fence 1 7)) n)
      ((fun k => (sample_world (k + 5), sample_fence 1 7)) (n + 1))) ∧
    (2 : Nat) ≤ 9 ∧
    (host1x_fence_signaled (sample_world (2 + 5)) (sample_fence 1 7)).1 = true ∧
    (host1x_fence_signaled (sample_world (9 + 5)) (sample_fence 1 7)).1 = true :=
  ⟨fun n => ⟨rfl, rfl, Nat.le_succ_of_le (Nat.le_refl _)⟩, by decide, by decide,
    C10_signaled_monotone (fun k => (sample_world (k + 5), sample_fence 1 7))
      (fun n => ⟨rfl, rfl, Nat.le_succ_of_le (Nat.le_refl _)⟩) 2 9 (by decide) (by decide)⟩

/-! ## Arming and release -/

/-- C11: `host1x_fence_enable_signaling` returns false when the counter has reached the
threshold and true otherwise, the negation of `host1x_fence_signaled` in the same
state; it records no registration (no call at all) and gives the object back as it was. -/
theorem C11_enable_signaling_rechecks (w : World) (f : host1x_fence) :
    (host1x_fence_enable_signaling w f).1 = !(host1x_fence_signaled w f).1 ∧
    ((host1x_fence_enable_signaling w f).1 = false ↔
      f.threshold ≤ w.syncpt_val f.syncpt.id) ∧
    (host1x_fence_enable_signaling w f).2.1 = f ∧
    (host1x_fence_enable_signaling w f).2.2 = w ∧
    registrations (host1x_fence_enable_signaling w f).2.2.trace =
      registrations w.trace := by
  unfold host1x_fence_enable_signaling host1x_fence_signaled
  by_cases h : f.threshold ≤ w.syncpt_val f.syncpt.id <;>
    simp [host1x_syncpt_is_expired, h]

/-- C12: `host1x_fence_release` on an object with a registration handle makes exactly one
unregister call, for the object's counter id and that handle, and then frees the
object; on an object without a handle it makes no unregister call and frees the
object. -/
theorem C12_release_unregisters_then_frees (w : World) (f : host1x_fence) :
    (∀ ref, f.waiter = some ref →
      (host1x_fence_release w f).trace =
          w.trace ++ [Event.intr_put_ref f.host.id f.syncpt.id ref, Event.kfree f.addr] ∧
      unregistrations (host1x_fence_release w f).trace =
          unregistrations w.trace ++ [(f.syncpt.id, ref)]) ∧
    (f.waiter = none →
      (host1x_fence_release w f).trace = w.trace ++ [Event.kfree f.addr] ∧
      unregistrations (host1x_fence_release w f).trace = unregistrations w.trace) ∧
    freed (host1x_fence_release w f).trace = freed w.trace ++ [f.addr] := by
  refine ⟨?_, ?_, ?_⟩
  · intro ref h
    simp [host1x_fence_release, h, host1x_intr_put_ref, kfree, World.emit,
      unregistrations_append, unregistrations]
  · intro h
    simp [host1x_fence_release, h, kfree, World.emit, unregistrations_append,
      unregistrations]
  · cases h : f.waiter <;>
      simp [host1x_fence_release, h, host1x_intr_put_ref, kfree, World.emit,
        freed_append, freed]

/-- C12 at concrete objects: a fence for counter 1 holding handle 200, and the same
fence without a handle. -/
theorem C12_release_unregisters_then_frees_witness :
    (host1x_fence_release (sample_world 5)
        { sample_fence 1 10 with waiter := some 200 }).trace =
      (sample_world 5).trace ++ [Event.intr_put_ref 0 1 200, Event.kfree 4097] ∧
    (host1x_fence_release (sample_world 5) (sample_fence 1 10)).trace =
      (sample_world 5).trace ++ [Event.kfree 4097] :=
  ⟨((C12_release_unregisters_then_frees (sample_world 5)
      { sample_fence 1 10 with waiter := some 200 }).1 200 rfl).1,
   ((C12_release_unregisters_then_frees (sample_world 5) (sample_fence 1 10)).2.1 rfl).1⟩

/-- C14: the label `host1x_fence_get_timeline_name` returns is the one written at
creation from the counter id alone, the decimal rendering of the id for every id
below 10^9, and `host1x_fence_signaled` and `host1x_fence_enable_signaling` give the
object back with the same label (`host1x_fence_is_waitable` and `host1x_fence_wait`
take the object by value and give no object back). -/
theorem C14_timeline_name_stable :
    (∀ (w : World) (env : Env) (host : host1x) (syncpt : host1x_syncpt) (threshold : Nat)
        (f : host1x_fence),
      (host1x_fence_create w env host syncpt threshold).1 = some f →
        host1x_fence_get_timeline_name f = snprintf_d 10 syncpt.id ∧
        (syncpt.id < 10 ^ 9 → host1x_fence_get_timeline_name f = Nat.repr syncpt.id)) ∧
    (∀ (w : World) (f : host1x_fence),
      host1x_fence_get_timeline_name (host1x_fence_signaled w f).2.1 =
        host1x_fence_get_timeline_name f ∧
      host1x_fence_get_timeline_name (host1x_fence_enable_signaling w f).2.1 =
        host1x_fence_get_timeline_name f) := by
  refine ⟨?_, ?_⟩
  · intro w env host syncpt threshold f h
    have hn := create_timeline_name w env host syncpt threshold f h
    refine ⟨hn, fun hid => ?_⟩
    rw [host1x_fence_get_timeline_name, hn, snprintf_d_exact syncpt.id hid]
  · intro w f
    refine ⟨rfl, ?_⟩
    unfold host1x_fence_enable_signaling
    split <;> rfl

/-- C14 at a concrete creation: the fence created for counter 42 is labelled "42". -/
theorem C14_timeline_name_stable_witness :
    (host1x_fence_create (sample_world 5) ⟨some 100, some 200, 0⟩ ⟨0, 0⟩ ⟨42⟩ 9).1 =
      some { addr := 100, context := 42, seqno := 9, refcount := 1, syncpt := ⟨42⟩,
             threshold := 9, host := ⟨0, 0⟩, waiter := some 200, timeline_name := "42" } ∧
    (42 : Nat) < 10 ^ 9 ∧
    host1x_fence_get_timeline_name
      { addr := 100, context := 42, seqno := 9, refcount := 1, syncpt := ⟨42⟩,
        threshold := 9, host := ⟨0, 0⟩, waiter := some 200, timeline_name := "42" } =
      Nat.repr 42 :=
  ⟨by decide, by decide,
    (C14_timeline_name_stable.1 (sample_world 5) ⟨some 100, some 200, 0⟩ ⟨0, 0⟩ ⟨42⟩ 9 _
      (by decide)).2 (by decide)⟩

/-- C15: on a join with a member that is not a native object `host1x_fence_wait` returns
-EINVAL and leaves the world, the channel included, exactly as it was, whatever the
other members are. -/
theorem C15_wait_foreign_member_pushes_nothing (w : World) (pre post : List dma_fence)
    (m : dma_fence) (host : host1x) (ch : host1x_channel)
    (hm : m.ops ≠ fence_ops.host1x_fence_ops) :
    host1x_fence_wait w (dma_fence.array (pre ++ m :: post)) host ch =
      some (-EINVAL, w) := by
  have h : ¬ (host1x_fence_is_waitable_loop (pre ++ m :: post) = true) := by
    rw [is_waitable_loop_iff]
    intro hall
    exact hm (hall m (by simp))
  simp [host1x_fence_wait, host1x_fence_is_waitable, to_dma_fence_array, h]

/-- C15 at a concrete join: an unsatisfied native member, then a foreign one. -/
theorem C15_wait_foreign_member_pushes_nothing_witness :
    (host1x_fence_signaled (sample_world 5) (sample_fence 1 10)).1 = false ∧
    host1x_fence_wait (sample_world 5)
        (dma_fence.array ([dma_fence.host1x (sample_fence 1 10)] ++
          dma_fence.foreign 7 :: [dma_fence.host1x (sample_fence 2 9)])) ⟨0, 0⟩ ⟨4⟩ =
      some (-EINVAL, sample_world 5) :=
  ⟨by decide,
    C15_wait_foreign_member_pushes_nothing (sample_world 5)
      [dma_fence.host1x (sample_fence 1 10)] [dma_fence.host1x (sample_fence 2 9)]
      (dma_fence.foreign 7) ⟨0, 0⟩ ⟨4⟩ (by decide)⟩

/-- C16: a fence for (A, 10) is created while counter A stands at 5: it is unsatisfied
and registered. Counter A then advances to 10 and the dispatcher's callback runs:
`host1x_fence_signaled` is true, and the release that follows records exactly one
unregister call, for counter A and the handle stored at creation. -/
theorem C16_signal_then_release (w : World) (host : host1x) (A : host1x_syncpt)
    (faddr waiter : Nat) (h5 : w.syncpt_val A.id = 5) :
    ∃ f w1,
      host1x_fence_create w ⟨some faddr, some waiter, 0⟩ host A 10 = (some f, w1) ∧
      (host1x_fence_signaled w1 f).1 = false ∧
      registrations w1.trace = registrations w.trace ++ [(A.id, 10)] ∧
      (host1x_fence_signaled (action_signal_fence (counter_advance w1 A 10) f).2
          (action_signal_fence (counter_advance w1 A 10) f).1).1 = true ∧
      unregistrations
          (host1x_fence_release (action_signal_fence (counter_advance w1 A 10) f).2
            (action_signal_fence (counter_advance w1 A 10) f).1).trace =
        unregistrations w.trace ++ [(A.id, waiter)] := by
  refine ⟨_, _, rfl, ?_, ?_, ?_, ?_⟩
  · simp [host1x_fence_signaled, host1x_syncpt_is_expired, host1x_intr_add_action,
      World.emit, h5]
  · simp [host1x_intr_add_action, World.emit, registrations_append, registrations]
  · simp [host1x_fence_signaled, host1x_syncpt_is_expired, action_signal_fence,
      counter_advance]
  · simp [host1x_fence_release, action_signal_fence, counter_advance,
      host1x_intr_add_action, host1x_intr_put_ref, kfree, World.emit,
      unregistrations_append, unregistrations]

/-- C16 in a world where every counter stands at 5, for counter 1. -/
theorem C16_signal_then_release_witness :
    (sample_world 5).syncpt_val 1 = 5 ∧
    ∃ f w1,
      host1x_fence_create (sample_world 5) ⟨some 100, some 200, 0⟩ ⟨0, 0⟩ ⟨1⟩ 10
        = (some f, w1) ∧
      (host1x_fence_signaled w1 f).1 = false ∧
      registrations w1.trace = registrations (sample_world 5).trace ++ [(1, 10)] ∧
      (host1x_fence_signaled (action_signal_fence (counter_advance w1 ⟨1⟩ 10) f).2
          (action_signal_fence (counter_advance w1 ⟨1⟩ 10) f).1).1 = true ∧
      unregistrations
          (host1x_fence_release (action_signal_fence (counter_advance w1 ⟨1⟩ 10) f).2
            (action_signal_fence (counter_advance w1 ⟨1⟩ 10) f).1).trace =
        unregistrations (sample_world 5).trace ++ [(1, 200)] :=
  ⟨rfl, C16_signal_then_release (sample_world 5) ⟨0, 0⟩ ⟨1⟩ 100 200 rfl⟩

/-- C17: when the registration fails inside `host1x_fence_create`, create returns NULL,
and before returning it frees the waiter record once and drops the object's only
reference, which frees the object once; no unregister call is made. -/
theorem C17_create_registration_failure (w : World) (env : Env) (host : host1x)
    (syncpt : host1x_syncpt) (threshold faddr waiter : Nat)
    (hf : env.kzalloc_f = some faddr) (hw : env.kzalloc_waiter = some waiter)
    (herr : env.intr_add_action_err ≠ 0) :
    (host1x_fence_create w env host syncpt threshold).1 = none ∧
    (host1x_fence_create w env host syncpt threshold).2.trace =
      w.trace ++ [Event.intr_add_action host.id syncpt.id threshold faddr waiter,
        Event.kfree waiter, Event.kfree faddr] ∧
    freed (host1x_fence_create w env host syncpt threshold).2.trace =
      freed w.trace ++ [waiter, faddr] ∧
    unregistrations (host1x_fence_create w env host syncpt threshold).2.trace =
      unregistrations w.trace := by
  obtain ⟨kf, kw, err⟩ := env
  simp only at hf hw herr
  subst hf hw
  refine ⟨?_, ?_, ?_, ?_⟩ <;>
    simp [host1x_fence_create, host1x_intr_add_action, herr, dma_fence_put,
      host1x_fence_release, kfree, World.emit, freed_append, freed,
      unregistrations_append, unregistrations]

/-- C17 at a concrete creation whose registration fails with -12. -/
theorem C17_create_registration_failure_witness :
    (host1x_fence_create (sample_world 5) ⟨some 100, some 200, -12⟩ ⟨0, 0⟩ ⟨1⟩ 10).1
      = none ∧
    (host1x_fence_create (sample_world 5) ⟨some 100, some 200, -12⟩ ⟨0, 0⟩ ⟨1⟩ 10).2.trace
      = (sample_world 5).trace ++
        [Event.intr_add_action 0 1 10 100 200, Event.kfree 200, Event.kfree 100] :=
  ⟨(C17_create_registration_failure (sample_world 5) ⟨some 100, some 200, -12⟩ ⟨0, 0⟩ ⟨1⟩
      10 100 200 rfl rfl (by decide)).1,
   (C17_create_registration_failure (sample_world 5) ⟨some 100, some 200, -12⟩ ⟨0, 0⟩ ⟨1⟩
      10 100 200 rfl rfl (by decide)).2.1⟩

/-- C18: for joins of native objects and a fixed counter state, the instructions
`host1x_fence_wait` pushes for the members of J1 followed by those of J2 are the
instructions it pushes for J1 followed by the ones it pushes for J2, and waiting on
J1 and then on J2 gives the same world; a join with the single member f pushes what
f alone pushes; an empty join succeeds and pushes nothing. -/
theorem C18_wait_join_append (w : World) (host : host1x) (ch : host1x_channel) :
    (∀ fs1 fs2 : List host1x_fence, ∃ p1 p2 : List Event,
      host1x_fence_wait w (dma_fence.array (fs1.map dma_fence.host1x)) host ch =
        some (0, { w with trace := w.trace ++ p1 }) ∧
      host1x_fence_wait w (dma_fence.array (fs2.map dma_fence.host1x)) host ch =
        some (0, { w with trace := w.trace ++ p2 }) ∧
      host1x_fence_wait w (dma_fence.array ((fs1 ++ fs2).map dma_fence.host1x)) host ch =
        some (0, { w with trace := w.trace ++ (p1 ++ p2) }) ∧
      host1x_fence_wait { w with trace := w.trace ++ p1 }
          (dma_fence.array (fs2.map dma_fence.host1x)) host ch =
        some (0, { w with trace := w.trace ++ (p1 ++ p2) })) ∧
    (∀ f : host1x_fence,
      host1x_fence_wait w (dma_fence.array [dma_fence.host1x f]) host ch =
        host1x_fence_wait w (dma_fence.host1x f) host ch) ∧
    host1x_fence_wait w (dma_fence.array []) host ch = some (0, w) := by
  refine ⟨?_, ?_, ?_⟩
  · intro fs1 fs2
    refine ⟨_, _, wait_array_native w fs1 host ch, wait_array_native w fs2 host ch, ?_, ?_⟩
    · rw [wait_array_native]
      simp
    · rw [wait_array_native]
      simp [host1x_syncpt_is_expired]
  · intro f
    have h := wait_array_native w [f] host ch
    simp only [List.map_cons, List.map_nil] at h
    rw [h]
    by_cases he : f.threshold ≤ w.syncpt_val f.syncpt.id <;>
      simp [host1x_fence_wait, host1x_fence_is_waitable, to_dma_fence_array,
        to_host1x_fence, dma_fence.ops, wait_single_eq, host1x_syncpt_is_expired, he,
        List.filter_cons]
  · have h := wait_array_native w [] host ch
    simpa using h

end Host1x

namespace Bh1730

/-! ## Lemmas on the light sensor -/

/-- A stored gain is valid when it is one of the four settings of `enum bh1730_gain`. -/
theorem gain_multiplier_valid (bh1730 : bh1730_data)
    (hg : bh1730.gain = BH1730_GAIN_1X ∨ bh1730.gain = BH1730_GAIN_2X ∨
      bh1730.gain = BH1730_GAIN_64X ∨ bh1730.gain = BH1730_GAIN_128X) :
    bh1730_gain_multiplier bh1730 = (gain_setting_to_multiplier bh1730.gain, bh1730) ∧
    (gain_setting_to_multiplier bh1730.gain = 1 ∨ gain_setting_to_multiplier bh1730.gain = 2 ∨
      gain_setting_to_multiplier bh1730.gain = 64 ∨
      gain_setting_to_multiplier bh1730.gain = 128) := by
  rcases hg with h | h | h | h <;>
    simp [bh1730_gain_multiplier, gain_setting_to_multiplier, h, BH1730_GAIN_1X,
      BH1730_GAIN_2X, BH1730_GAIN_64X, BH1730_GAIN_128X]

/-- The multiplier `bh1730_gain_multiplier` returns is never zero, whatever is stored. -/
theorem gain_multiplier_pos (bh1730 : bh1730_data) :
    1 ≤ (bh1730_gain_multiplier bh1730).1 ∧ (bh1730_gain_multiplier bh1730).1 ≤ 128 := by
  unfold bh1730_gain_multiplier gain_setting_to_multiplier
  split_ifs <;> simp_all

/-- For a stored itime in 1..255 the integration time is 2699200 ns times 256 - itime,
and it is at least 2699 microseconds. -/
theorem itime_ns_valid (bh1730 : bh1730_data) (h1 : 1 ≤ bh1730.itime)
    (h255 : bh1730.itime ≤ 255) :
    ((bh1730_itime_ns bh1730 : Nat) : Int) = 2699200 * (256 - bh1730.itime) ∧
    2699 ≤ bh1730_itime_ns bh1730 / NSEC_PER_USEC := by
  obtain ⟨n, hn⟩ := Int.eq_ofNat_of_zero_le (show (0 : Int) ≤ 256 - bh1730.itime by omega)
  have hn1 : 1 ≤ n ∧ n ≤ 255 := by omega
  have hu : to_u64 (256 - bh1730.itime) = n := by
    unfold to_u64
    rw [hn]
    omega
  have hmod : (2800 * 964 * n) % 2 ^ 64 = 2699200 * n :=
    (Nat.mod_eq_of_lt (by omega)).trans (by ring)
  unfold bh1730_itime_ns BH1730_INTERNAL_CLOCK_NS NSEC_PER_USEC
  rw [hu, hn, hmod]
  constructor
  · push_cast
    ring
  · rw [Nat.le_div_iff_mul_le (by decide)]
    omega

/-- With a zero word from DATA0 and no i2c error, `bh1730_get_millilux` divides by zero. -/
theorem get_millilux_visible_zero (bh1730 : bh1730_data) (ir : Int) (hir : 0 ≤ ir) :
    bh1730_get_millilux bh1730 0 ir = none := by
  have : ¬ ir < 0 := by omega
  simp [bh1730_get_millilux, int_div, this]

/-- With a non-zero word from DATA0 and a stored itime in 1..255, no division of
`bh1730_get_millilux` is by zero: it returns. -/
theorem get_millilux_no_fault (bh1730 : bh1730_data) (visible ir : Int)
    (hv : 0 < visible) (h1 : 1 ≤ bh1730.itime) (h255 : bh1730.itime ≤ 255) :
    (bh1730_get_millilux bh1730 visible ir).isSome = true := by
  have hm := gain_multiplier_pos bh1730
  have hu : to_u64 (bh1730_gain_multiplier bh1730).1 ≠ 0 := by
    unfold to_u64
    omega
  have ht : bh1730_itime_ns bh1730 / NSEC_PER_USEC ≠ 0 := by
    have := (itime_ns_valid bh1730 h1 h255).2
    omega
  have hv0 : visible ≠ 0 := by omega
  have hvn : ¬ visible < 0 := by omega
  unfold bh1730_get_millilux
  simp only [hvn, if_false, int_div, hv0, u64_div, hu, ht]
  by_cases hir : ir < 0
  · simp [hir]
  · simp only [hir, if_false]
    cases select_coefs (Int.tdiv (ir * 1000) visible) with
    | none => rfl
    | some c => rfl

/-- The comparison `ir * 1000 / visible < k` of the driver, without the division. -/
theorem ratio_lt_iff (visible ir k : Int) (hv : 0 < visible) (hir : 0 ≤ ir) :
    Int.tdiv (ir * 1000) visible < k ↔ ir * 1000 < k * visible := by
  rw [Int.tdiv_eq_ediv (by omega) (by omega)]
  exact Int.ediv_lt_iff_lt_mul hv

theorem select_coefs_bounds (ratio vc ic : Int) (h : select_coefs ratio = some (vc, ic)) :
    0 ≤ vc ∧ vc ≤ 5002 ∧ 0 ≤ ic := by
  unfold select_coefs at h
  split_ifs at h <;> simp at h <;> omega

/-- In the four bands below 1373 the weighted difference is not negative. -/
theorem weighted_difference_nonneg (visible ir vc ic : Int) (hv : 0 < visible)
    (hir : 0 ≤ ir) (hsel : select_coefs (Int.tdiv (ir * 1000) visible) = some (vc, ic))
    (hband : Int.tdiv (ir * 1000) visible < 1373) : 0 ≤ vc * visible - ic * ir := by
  unfold select_coefs at hsel
  rw [ratio_lt_iff visible ir _ hv hir] at hband
  split_ifs at hsel with h1 h2 h3 h4
  · rw [ratio_lt_iff visible ir _ hv hir] at h1
    simp at hsel
    obtain ⟨rfl, rfl⟩ := hsel
    omega
  · rw [ratio_lt_iff visible ir _ hv hir] at h2
    simp at hsel
    obtain ⟨rfl, rfl⟩ := hsel
    omega
  · rw [ratio_lt_iff visible ir _ hv hir] at h3
    simp at hsel
    obtain ⟨rfl, rfl⟩ := hsel
    omega
  · simp at hsel
    obtain ⟨rfl, rfl⟩ := hsel
    omega
  · simp at hsel
    obtain ⟨rfl, rfl⟩ := hsel
    omega

/-- Whenever the weighted difference of the selected band is not negative, no `u64` step
of `bh1730_get_millilux` wraps and the result is the exact value. -/
theorem get_millilux_exact (bh1730 : bh1730_data) (visible ir vc ic : Int)
    (hv : 0 < visible) (hv2 : visible ≤ 65535) (hir : 0 ≤ ir)
    (hg : bh1730.gain = BH1730_GAIN_1X ∨ bh1730.gain = BH1730_GAIN_2X ∨
      bh1730.gain = BH1730_GAIN_64X ∨ bh1730.gain = BH1730_GAIN_128X)
    (h1 : 1 ≤ bh1730.itime) (h255 : bh1730.itime ≤ 255)
    (hsel : select_coefs (Int.tdiv (ir * 1000) visible) = some (vc, ic))
    (hD : 0 ≤ vc * visible - ic * ir) :
    bh1730_get_millilux bh1730 visible ir =
      some (millilux_exact vc ic visible ir (gain_setting_to_multiplier bh1730.gain)
        ((bh1730_itime_ns bh1730 / NSEC_PER_USEC : Nat) : Int), bh1730) := by
  obtain ⟨hvc0, hvc, hic0⟩ := select_coefs_bounds _ vc ic hsel
  obtain ⟨n, hn⟩ := Int.eq_ofNat_of_zero_le hD
  have hnb : n ≤ 5002 * 65535 := by
    have h1 : vc * visible ≤ 5002 * 65535 := mul_le_mul hvc hv2 (by omega) (by omega)
    have h2 : 0 ≤ ic * ir := mul_nonneg hic0 hir
    omega
  obtain ⟨hgm, hgv⟩ := gain_multiplier_valid bh1730 hg
  obtain ⟨m, hm⟩ := Int.eq_ofNat_of_zero_le
    (show (0 : Int) ≤ gain_setting_to_multiplier bh1730.gain by omega)
  have hm1 : 1 ≤ m := by omega
  have ht := (itime_ns_valid bh1730 h1 h255).2
  have hun : to_u64 (vc * visible - ic * ir) = n := by
    unfold to_u64
    rw [hn]
    omega
  have hum : to_u64 (gain_setting_to_multiplier bh1730.gain) = m := by
    unfold to_u64
    rw [hm]
    omega
  have hv0 : visible ≠ 0 := by omega
  have hvn : ¬ visible < 0 := by omega
  have hirn : ¬ ir < 0 := by omega
  have e1 : (USEC_PER_MSEC * n) % 2 ^ 64 = 1000 * n := by
    unfold USEC_PER_MSEC
    omega
  have hx : 1000 * n / m ≤ 1000 * n := Nat.div_le_self _ _
  have e2 : (1000 * n / m * 103) % 2 ^ 64 = 1000 * n / m * 103 :=
    Nat.mod_eq_of_lt (by omega)
  have hy : 1000 * n / m * 103 / (bh1730_itime_ns bh1730 / NSEC_PER_USEC) ≤
      1000 * n / m * 103 := Nat.div_le_self _ _
  have e3 : to_s64 (1000 * n / m * 103 / (bh1730_itime_ns bh1730 / NSEC_PER_USEC)) =
      ((1000 * n / m * 103 / (bh1730_itime_ns bh1730 / NSEC_PER_USEC) : Nat) : Int) := by
    unfold to_s64
    rw [Nat.mod_eq_of_lt (by omega), if_pos (by omega)]
  have hm0 : m ≠ 0 := by omega
  have ht0 : bh1730_itime_ns bh1730 / NSEC_PER_USEC ≠ 0 := by omega
  unfold bh1730_get_millilux
  simp only [hvn, hirn, if_false, int_div, hv0, hsel, hgm, hun, hum, e1, u64_div, hm0, e2,
    ht0, e3]
  unfold millilux_exact
  rw [hn, hm]
  push_cast
  rfl

/-- When `ir * 1000 / visible` is 1879 or more, `bh1730_get_millilux` returns 0. -/
theorem get_millilux_last_branch (bh1730 : bh1730_data) (visible ir : Int)
    (hv : 0 < visible) (hir : 0 ≤ ir) (h : 1879 ≤ Int.tdiv (ir * 1000) visible) :
    bh1730_get_millilux bh1730 visible ir = some (0, bh1730) := by
  have hv0 : visible ≠ 0 := by omega
  have hvn : ¬ visible < 0 := by omega
  have hirn : ¬ ir < 0 := by omega
  have hsel : select_coefs (Int.tdiv (ir * 1000) visible) = none := by
    unfold select_coefs
    split_ifs <;> first | rfl | omega
  unfold bh1730_get_millilux
  simp only [hvn, hirn, if_false, int_div, hv0, hsel]

/-! ## The lux computation -/

/-- C19 (the code at the failing input): with the words visible = 0 and ir = 0, a valid
gain and itime = 200, the first comparison of `bh1730_get_millilux` computes
`ir * 1000 / visible` with a zero divisor: the function divides by zero. -/
theorem C19_get_millilux_divides_by_zero :
    int_div (0 * 1000) 0 = none ∧
    bh1730_get_millilux { gain := BH1730_GAIN_1X, itime := 200 } 0 0 = none := by
  decide

/-- C20 (the code at the failing input): with visible = 1000 and ir = 1875 the ratio 1875
selects the last band (309, 165), where the weighted difference is -375; the `u64`
computation wraps and `bh1730_get_millilux` returns 122038596630418, while the exact
value is -256. -/
theorem C20_get_millilux_wraps_in_last_band :
    int_div (1875 * 1000) 1000 = some 1875 ∧
    select_coefs 1875 = some (309, 165) ∧
    (309 * 1000 - 165 * 1875 : Int) = -375 ∧
    bh1730_get_millilux { gain := BH1730_GAIN_1X, itime := 200 } 1000 1875 =
      some (122038596630418, { gain := BH1730_GAIN_1X, itime := 200 }) ∧
    millilux_exact 309 165 1000 1875 (gain_setting_to_multiplier BH1730_GAIN_1X)
      ((bh1730_itime_ns { gain := BH1730_GAIN_1X, itime := 200 } / NSEC_PER_USEC : Nat) : Int)
      = -256 := by
  decide

/-! ## Integration time -/

/-- For 0 <= time_ms < 2^31 no step of the computation of itime wraps: the function is
the case distinction on `itime_rounded`. -/
theorem set_integration_time_ms_eq (bh1730 : bh1730_data) (time_ms write_ret : Int)
    (h0 : 0 ≤ time_ms) (h31 : time_ms < 2 ^ 31) :
    bh1730_set_integration_time_ms bh1730 time_ms write_ret =
      if itime_rounded time_ms ≤ 0 ∨ itime_rounded time_ms > 255 then (-ERANGE, bh1730, [])
      else if write_ret < 0 then
        (write_ret, bh1730,
          [dev_event.write 0x81 (itime_rounded time_ms).toNat write_ret])
      else
        (0, { bh1730 with itime := itime_rounded time_ms },
          [dev_event.write 0x81 (itime_rounded time_ms).toNat write_ret]) := by
  obtain ⟨n, rfl⟩ := Int.eq_ofNat_of_zero_le h0
  have hn : n < 2 ^ 31 := by omega
  have hu : to_u64 (n : Int) = n := by
    unfold to_u64
    omega
  have hq : DIV_ROUND_CLOSEST_ULL ((n * NSEC_PER_MSEC) % 2 ^ 64)
      ((BH1730_INTERNAL_CLOCK_NS * 964) % 2 ^ 64) = (n * 1000000 + 1349600) / 2699200 := by
    unfold DIV_ROUND_CLOSEST_ULL NSEC_PER_MSEC BH1730_INTERNAL_CLOCK_NS
    have h1 : n * 1000000 % 2 ^ 64 = n * 1000000 := Nat.mod_eq_of_lt (by omega)
    have h2 : (n * 1000000 + 2800 * 964 % 2 ^ 64 / 2) % 2 ^ 64 = n * 1000000 + 1349600 := by
      omega
    rw [h1, h2]
    rfl
  have hqb : (n * 1000000 + 1349600) / 2699200 < 2 ^ 31 := by omega
  have hi : to_int ((n * 1000000 + 1349600) / 2699200) =
      (((n * 1000000 + 1349600) / 2699200 : Nat) : Int) := by
    unfold to_int
    rw [Nat.mod_eq_of_lt (by omega), if_pos hqb]
  have hr : itime_rounded (n : Int) =
      256 - (((n * 1000000 + 1349600) / 2699200 : Nat) : Int) := by
    unfold itime_rounded
    push_cast
    rfl
  unfold bh1730_set_integration_time_ms
  simp only [hu, hq, hi, ← hr]
  by_cases hrange : itime_rounded (n : Int) ≤ 0 ∨ itime_rounded (n : Int) > 255
  · simp only [hrange, if_true]
  · simp only [hrange, if_false]
    have h8 : to_u8 (itime_rounded (n : Int)) = (itime_rounded (n : Int)).toNat := by
      unfold to_u8
      omega
    have h256 : (itime_rounded (n : Int)).toNat % 256 = (itime_rounded (n : Int)).toNat := by
      omega
    simp only [bh1730_write, h8, h256, BH1730_CMD_BIT, BH1730_REG_TIMING]
    rfl

theorem itime_rounded_range (time_ms : Int) :
    (1 ≤ itime_rounded time_ms ∧ itime_rounded time_ms ≤ 255) ↔
      (2 ≤ time_ms ∧ time_ms ≤ 689) := by
  unfold itime_rounded
  omega

/-- C21: for 0 <= time_ms < 2^31, `bh1730_set_integration_time_ms` computes itime =
256 - round(time_ms * 10^6 / 2699200); itime is in 1..255 exactly when time_ms is in
2..689; outside that range it returns -ERANGE, writes nothing and keeps the stored
itime; inside it writes itime to the TIMING register and stores it only when the write
succeeds, so a stored itime it has changed is in 1..255; the default 150 ms stores 200. -/
theorem C21_set_integration_time_ms (bh1730 : bh1730_data) (time_ms write_ret : Int)
    (h0 : 0 ≤ time_ms) (h31 : time_ms < 2 ^ 31) :
    ((1 ≤ itime_rounded time_ms ∧ itime_rounded time_ms ≤ 255) ↔
      (2 ≤ time_ms ∧ time_ms ≤ 689)) ∧
    (¬ (2 ≤ time_ms ∧ time_ms ≤ 689) →
      bh1730_set_integration_time_ms bh1730 time_ms write_ret = (-ERANGE, bh1730, [])) ∧
    (2 ≤ time_ms → time_ms ≤ 689 → write_ret < 0 →
      bh1730_set_integration_time_ms bh1730 time_ms write_ret =
        (write_ret, bh1730,
          [dev_event.write 0x81 (itime_rounded time_ms).toNat write_ret])) ∧
    (2 ≤ time_ms → time_ms ≤ 689 → 0 ≤ write_ret →
      bh1730_set_integration_time_ms bh1730 time_ms write_ret =
        (0, { bh1730 with itime := itime_rounded time_ms },
          [dev_event.write 0x81 (itime_rounded time_ms).toNat write_ret])) ∧
    ((bh1730_set_integration_time_ms bh1730 time_ms write_ret).2.1.itime = bh1730.itime ∨
      (0 ≤ write_ret ∧
        (bh1730_set_integration_time_ms bh1730 time_ms write_ret).2.2 =
          [dev_event.write 0x81 (itime_rounded time_ms).toNat write_ret] ∧
        1 ≤ (bh1730_set_integration_time_ms bh1730 time_ms write_ret).2.1.itime ∧
        (bh1730_set_integration_time_ms bh1730 time_ms write_ret).2.1.itime ≤ 255)) ∧
    bh1730_set_integration_time_ms bh1730 BH1730_DEFAULT_INTEG_MS 0 =
      (0, { bh1730 with itime := 200 }, [dev_event.write 0x81 200 0]) := by
  have hr := itime_rounded_range time_ms
  have heq := set_integration_time_ms_eq bh1730 time_ms write_ret h0 h31
  refine ⟨hr, ?_, ?_, ?_, ?_, ?_⟩
  · intro hout
    have : itime_rounded time_ms ≤ 0 ∨ itime_rounded time_ms > 255 := by omega
    rw [heq, if_pos this]
  · intro h2 h689 hw
    have : ¬ (itime_rounded time_ms ≤ 0 ∨ itime_rounded time_ms > 255) := by omega
    rw [heq, if_neg this, if_pos hw]
  · intro h2 h689 hw
    have : ¬ (itime_rounded time_ms ≤ 0 ∨ itime_rounded time_ms > 255) := by omega
    have hw2 : ¬ write_ret < 0 := by omega
    rw [heq, if_neg this, if_neg hw2]
  · rw [heq]
    by_cases hrange : itime_rounded time_ms ≤ 0 ∨ itime_rounded time_ms > 255
    · rw [if_pos hrange]
      exact Or.inl rfl
    · rw [if_neg hrange]
      by_cases hw : write_ret < 0
      · rw [if_pos hw]
        exact Or.inl rfl
      · rw [if_neg hw]
        refine Or.inr ⟨by omega, rfl, ?_, ?_⟩
        · show 1 ≤ itime_rounded time_ms
          omega
        · show itime_rounded time_ms ≤ 255
          omega
  · rw [set_integration_time_ms_eq bh1730 BH1730_DEFAULT_INTEG_MS 0 (by decide) (by decide)]
    rfl

/-- C21 at a concrete call: 100 ms with a successful write stores itime 219. -/
theorem C21_set_integration_time_ms_witness :
    (0 : Int) ≤ 100 ∧ (100 : Int) < 2 ^ 31 ∧ itime_rounded 100 = 219 ∧
    bh1730_set_integration_time_ms { gain := 0, itime := 7 } 100 0 =
      (0, { gain := 0, itime := itime_rounded 100 },
        [dev_event.write 0x81 (itime_rounded 100).toNat 0]) :=
  ⟨by decide, by decide, by decide,
    (C21_set_integration_time_ms { gain := 0, itime := 7 } 100 0 (by decide)
      (by decide)).2.2.2.1 (by decide) (by decide) (by decide)⟩

/-! ## Gain adjustment -/

/-- On a reading that is not negative the loop of `bh1730_adjust_gain`, started at 1X,
leaves with the lowest sufficient gain. -/
theorem adjust_gain_loop_eq (norm : Int) (h : 0 ≤ norm) :
    adjust_gain_loop norm 3 BH1730_GAIN_1X = lowest_sufficient_gain norm := by
  have e1 : Int.tdiv norm 128 = norm / 128 :=
    Int.tdiv_eq_ediv (by omega) (by omega)
  have e2 : Int.tdiv (norm * 2) 128 = norm * 2 / 128 :=
    Int.tdiv_eq_ediv (by omega) (by omega)
  have e3 : Int.tdiv (norm * 64) 128 = norm * 64 / 128 :=
    Int.tdiv_eq_ediv (by omega) (by omega)
  simp only [adjust_gain_loop, lowest_sufficient_gain, gain_setting_to_multiplier,
    BH1730_GAIN_1X, BH1730_GAIN_2X, BH1730_GAIN_64X, BH1730_GAIN_128X]
  norm_num
  simp only [e1, e2, e3]

theorem lowest_sufficient_gain_valid (norm : Int) :
    lowest_sufficient_gain norm = BH1730_GAIN_1X ∨
    lowest_sufficient_gain norm = BH1730_GAIN_2X ∨
    lowest_sufficient_gain norm = BH1730_GAIN_64X ∨
    lowest_sufficient_gain norm = BH1730_GAIN_128X := by
  unfold lowest_sufficient_gain
  split_ifs <;> simp

/-- On words in 0..65535 and a valid stored gain, `bh1730_adjust_gain` is the case
distinction on the lowest sufficient gain of the normalised reading. -/
theorem adjust_gain_eq (bh1730 : bh1730_data) (visible ir write_ret : Int)
    (hv0 : 0 ≤ visible) (hv : visible ≤ 65535) (hi0 : 0 ≤ ir) (hi : ir ≤ 65535)
    (hg : bh1730.gain = BH1730_GAIN_1X ∨ bh1730.gain = BH1730_GAIN_2X ∨
      bh1730.gain = BH1730_GAIN_64X ∨ bh1730.gain = BH1730_GAIN_128X) :
    bh1730_adjust_gain bh1730 visible ir write_ret =
      if lowest_sufficient_gain (normalised_reading bh1730.gain visible ir) = bh1730.gain
      then (0, bh1730, [])
      else if write_ret < 0 then
        (write_ret, bh1730,
          [dev_event.write 0x87
            (lowest_sufficient_gain (normalised_reading bh1730.gain visible ir)).toNat
            write_ret])
      else
        (0, { bh1730 with
                gain := lowest_sufficient_gain (normalised_reading bh1730.gain visible ir) },
          [dev_event.write 0x87
            (lowest_sufficient_gain (normalised_reading bh1730.gain visible ir)).toNat
            write_ret] ++ bh1730_wait_for_next_measurement bh1730) := by
  obtain ⟨hgm, hgv⟩ := gain_multiplier_valid bh1730 hg
  have hvn : ¬ visible < 0 := by omega
  have hirn : ¬ ir < 0 := by omega
  have hmax0 : 0 ≤ max visible ir := le_trans hv0 (le_max_left _ _)
  have hmax : max visible ir ≤ 65535 := max_le hv hi
  have hnorm0 : 0 ≤ normalised_reading bh1730.gain visible ir := by
    unfold normalised_reading
    split_ifs
    · decide
    · exact Int.ediv_nonneg (by omega) (by omega)
  have hhm : (if max visible ir = USHRT_MAX then (max visible ir * 128, bh1730)
      else ((max visible ir * 128).tdiv (bh1730_gain_multiplier bh1730).1,
        (bh1730_gain_multiplier bh1730).2)) =
      (normalised_reading bh1730.gain visible ir, bh1730) := by
    unfold normalised_reading USHRT_MAX
    by_cases hc : max visible ir = 65535
    · simp only [hc, if_true]
    · simp only [hc, if_false, hgm]
      rw [Int.tdiv_eq_ediv (by omega) (by omega)]
  have hsel := lowest_sufficient_gain_valid (normalised_reading bh1730.gain visible ir)
  have h8 : to_u8 (lowest_sufficient_gain (normalised_reading bh1730.gain visible ir)) % 256
      = (lowest_sufficient_gain (normalised_reading bh1730.gain visible ir)).toNat := by
    unfold to_u8
    rcases hsel with h | h | h | h <;> rw [h] <;> decide
  unfold bh1730_adjust_gain
  simp only [hvn, hirn, if_false, hhm, adjust_gain_loop_eq _ hnorm0]
  by_cases hc : lowest_sufficient_gain (normalised_reading bh1730.gain visible ir)
      = bh1730.gain
  · simp only [hc, ne_eq, not_true_eq_false, if_false, if_true]
  · simp only [hc, ne_eq, not_false_eq_true, if_true, if_false, bh1730_set_gain,
      bh1730_write, h8, BH1730_CMD_BIT, BH1730_REG_GAIN]
    by_cases hw : write_ret < 0
    · simp only [hw, if_true]
      rfl
    · simp only [hw, if_false]
      rfl

/-- C22: on words in 0..65535 and a valid stored gain, the loop of `bh1730_adjust_gain`
selects the lowest gain among 1X, 2X and 64X whose normalised reading is at least 1024,
and 128X when none is; a higher word clamped at 65535 selects 1X; the gain stored
afterwards is one of the four settings; when the selection is the stored gain nothing is
written, otherwise the selection is written to the GAIN register and stored when the
write succeeds. -/
theorem C22_adjust_gain_selects (bh1730 : bh1730_data) (visible ir write_ret : Int)
    (hv0 : 0 ≤ visible) (hv : visible ≤ 65535) (hi0 : 0 ≤ ir) (hi : ir ≤ 65535)
    (hg : bh1730.gain = BH1730_GAIN_1X ∨ bh1730.gain = BH1730_GAIN_2X ∨
      bh1730.gain = BH1730_GAIN_64X ∨ bh1730.gain = BH1730_GAIN_128X) :
    adjust_gain_loop (normalised_reading bh1730.gain visible ir) 3 BH1730_GAIN_1X =
      lowest_sufficient_gain (normalised_reading bh1730.gain visible ir) ∧
    (max visible ir = 65535 →
      lowest_sufficient_gain (normalised_reading bh1730.gain visible ir) = BH1730_GAIN_1X) ∧
    ((bh1730_adjust_gain bh1730 visible ir write_ret).2.1.gain = BH1730_GAIN_1X ∨
      (bh1730_adjust_gain bh1730 visible ir write_ret).2.1.gain = BH1730_GAIN_2X ∨
      (bh1730_adjust_gain bh1730 visible ir write_ret).2.1.gain = BH1730_GAIN_64X ∨
      (bh1730_adjust_gain bh1730 visible ir write_ret).2.1.gain = BH1730_GAIN_128X) ∧
    (lowest_sufficient_gain (normalised_reading bh1730.gain visible ir) = bh1730.gain →
      bh1730_adjust_gain bh1730 visible ir write_ret = (0, bh1730, [])) ∧
    (lowest_sufficient_gain (normalised_reading bh1730.gain visible ir) ≠ bh1730.gain →
      write_ret < 0 →
      bh1730_adjust_gain bh1730 visible ir write_ret =
        (write_ret, bh1730,
          [dev_event.write 0x87
            (lowest_sufficient_gain (normalised_reading bh1730.gain visible ir)).toNat
            write_ret])) ∧
    (lowest_sufficient_gain (normalised_reading bh1730.gain visible ir) ≠ bh1730.gain →
      0 ≤ write_ret →
      bh1730_adjust_gain bh1730 visible ir write_ret =
        (0, { bh1730 with
                gain := lowest_sufficient_gain (normalised_reading bh1730.gain visible ir) },
          [dev_event.write 0x87
            (lowest_sufficient_gain (normalised_reading bh1730.gain visible ir)).toNat
            write_ret] ++ bh1730_wait_for_next_measurement bh1730)) ∧
    ((bh1730_adjust_gain bh1730 visible ir write_ret).2.2 ≠ [] →
      lowest_sufficient_gain (normalised_reading bh1730.gain visible ir) ≠ bh1730.gain) := by
  have heq := adjust_gain_eq bh1730 visible ir write_ret hv0 hv hi0 hi hg
  have hsel := lowest_sufficient_gain_valid (normalised_reading bh1730.gain visible ir)
  have hnorm0 : 0 ≤ normalised_reading bh1730.gain visible ir := by
    obtain ⟨-, hgv⟩ := gain_multiplier_valid bh1730 hg
    have hmax0 : 0 ≤ max visible ir := le_trans hv0 (le_max_left _ _)
    unfold normalised_reading
    split_ifs
    · decide
    · exact Int.ediv_nonneg (by omega) (by omega)
  refine ⟨adjust_gain_loop_eq _ hnorm0, ?_, ?_, ?_, ?_, ?_, ?_⟩
  · intro hmax
    simp only [normalised_reading, hmax, if_true]
    decide
  · rw [heq]
    split_ifs
    · exact hg
    · exact hg
    · exact hsel
  · intro h
    rw [heq, if_pos h]
  · intro h hw
    rw [heq, if_neg h, if_pos hw]
  · intro h hw
    have hw2 : ¬ write_ret < 0 := by omega
    rw [heq, if_neg h, if_neg hw2]
  · intro hne h
    rw [heq, if_pos h] at hne
    exact hne rfl

/-- C22 at a concrete reading: at 1X the words 100 and 3 select 64X, which is written
and stored. -/
theorem C22_adjust_gain_selects_witness :
    lowest_sufficient_gain (normalised_reading BH1730_GAIN_1X 100 3) = BH1730_GAIN_64X ∧
    bh1730_adjust_gain { gain := BH1730_GAIN_1X, itime := 200 } 100 3 0 =
      (0, { gain := lowest_sufficient_gain (normalised_reading BH1730_GAIN_1X 100 3),
            itime := 200 },
        [dev_event.write 0x87
          (lowest_sufficient_gain (normalised_reading BH1730_GAIN_1X 100 3)).toNat 0] ++
          bh1730_wait_for_next_measurement { gain := BH1730_GAIN_1X, itime := 200 }) :=
  ⟨by decide,
    (C22_adjust_gain_selects { gain := BH1730_GAIN_1X, itime := 200 } 100 3 0 (by decide)
      (by decide) (by decide) (by decide) (Or.inl rfl)).2.2.2.2.2.1 (by decide)
      (by decide)⟩

end Bh1730

namespace Panel

/-! ## Lemmas on the panel drivers -/

theorem unmatched_append (supply : Nat) (l1 l2 : List Event) :
    unmatched supply (l1 ++ l2) = unmatched supply l1 + unmatched supply l2 := by
  induction l1 with
  | nil => simp [unmatched]
  | cons e rest ih => cases e <;> simp [unmatched, ih, add_assoc]

theorem call_unmatched (supply : Nat) (w : World) (mk : Int → Event) :
    unmatched supply (w.call mk).2.trace =
      unmatched supply w.trace + unmatched supply [mk (w.call mk).1] :=
  unmatched_append supply w.trace _

theorem emit_unmatched (supply : Nat) (w : World) (e : Event) :
    unmatched supply (w.emit e).trace = unmatched supply w.trace + unmatched supply [e] :=
  unmatched_append supply w.trace _

/-- The loop over an `init_cmds` table makes no regulator call. -/
theorem write_init_cmds_unmatched (supply : Nat) (cmds : List init_cmd) :
    ∀ w : World, unmatched supply (write_init_cmds w cmds).2.trace =
      unmatched supply w.trace := by
  induction cmds with
  | nil => intro w; rfl
  | cons c rest ih =>
    intro w
    unfold write_init_cmds
    simp only []
    split_ifs
    · simp [call_unmatched, unmatched]
    · rw [ih]
      simp [call_unmatched, unmatched]
    · rfl

/-- The function `jdi_panel_init` makes no regulator call and keeps the flags and the
reset GPIO of the panel. -/
theorem jdi_panel_init_frame (supply : Nat) (jdi : jdi_panel) (w : World) :
    unmatched supply (jdi_panel_init jdi w).2.2.trace = unmatched supply w.trace ∧
    (jdi_panel_init jdi w).2.1.prepared = jdi.prepared ∧
    (jdi_panel_init jdi w).2.1.reset_gpio = jdi.reset_gpio := by
  unfold jdi_panel_init
  simp only []
  generalize (if (if ((w.call (Event.set_maximum_return_packet_size 3)).2.call
      Event.dcs_read_display_id).1 < 0 ∨ ((w.call (Event.set_maximum_return_packet_size 3)).2.call
      Event.dcs_read_display_id).1 = 0 then 0 else ((w.call
      (Event.set_maximum_return_packet_size 3)).2.call Event.dcs_read_display_id).2.display_id
      % 256) = 16 then init_cmds_0x10 else []) = cmds
  split_ifs <;>
    simp only [call_unmatched, emit_unmatched, write_init_cmds_unmatched, unmatched,
      and_self, and_true, add_zero]

/-- The function `jdi_panel_on` makes no regulator call and keeps the flags and the reset
GPIO of the panel. -/
theorem jdi_panel_on_frame (supply : Nat) (jdi : jdi_panel) (w : World) :
    unmatched supply (jdi_panel_on jdi w).2.2.trace = unmatched supply w.trace ∧
    (jdi_panel_on jdi w).2.1.prepared = jdi.prepared ∧
    (jdi_panel_on jdi w).2.1.reset_gpio = jdi.reset_gpio := by
  unfold jdi_panel_on
  simp only []
  split_ifs <;> simp [call_unmatched, emit_unmatched, unmatched]

/-- The function `jdi_panel_off` makes no regulator call and keeps the flags and the
reset GPIO of the panel. -/
theorem jdi_panel_off_frame (supply : Nat) (jdi : jdi_panel) (w : World) :
    unmatched supply (jdi_panel_off jdi w).2.2.trace = unmatched supply w.trace ∧
    (jdi_panel_off jdi w).2.1.prepared = jdi.prepared ∧
    (jdi_panel_off jdi w).2.1.reset_gpio = jdi.reset_gpio := by
  unfold jdi_panel_off
  simp only []
  split_ifs <;> simp [call_unmatched, emit_unmatched, unmatched]

/-- The part of `jdi_panel_prepare` that follows the reset pulse, from any world: either
it fails, and both supplies have been disabled once, or it succeeds without a regulator
call. -/
theorem jdi_panel_prepare_tail (jdi : jdi_panel) (w3 : World) (hp : jdi.prepared = false) :
    ∀ R : Int × jdi_panel × World,
      R = (if (jdi_panel_init jdi w3).1 < 0 then
            jdi_panel_prepare_reset (jdi_panel_init jdi w3).1 (jdi_panel_init jdi w3).2.1
              (jdi_panel_init jdi w3).2.2
          else if (jdi_panel_on (jdi_panel_init jdi w3).2.1 (jdi_panel_init jdi w3).2.2).1 < 0
          then
            jdi_panel_prepare_reset
              (jdi_panel_on (jdi_panel_init jdi w3).2.1 (jdi_panel_init jdi w3).2.2).1
              (jdi_panel_on (jdi_panel_init jdi w3).2.1 (jdi_panel_init jdi w3).2.2).2.1
              (jdi_panel_on (jdi_panel_init jdi w3).2.1 (jdi_panel_init jdi w3).2.2).2.2
          else
            (0, { (jdi_panel_on (jdi_panel_init jdi w3).2.1
                    (jdi_panel_init jdi w3).2.2).2.1 with prepared := true },
              (jdi_panel_on (jdi_panel_init jdi w3).2.1 (jdi_panel_init jdi w3).2.2).2.2)) →
      (R.1 < 0 ∧ R.2.1.prepared = false ∧
        unmatched 1 R.2.2.trace = unmatched 1 w3.trace - 1 ∧
        unmatched 2 R.2.2.trace = unmatched 2 w3.trace - 1) ∨
      (R.1 = 0 ∧ R.2.1.prepared = true ∧
        unmatched 1 R.2.2.trace = unmatched 1 w3.trace ∧
        unmatched 2 R.2.2.trace = unmatched 2 w3.trace) := by
  intro R hR
  have hi1 := jdi_panel_init_frame 1 jdi w3
  have hi2 := jdi_panel_init_frame 2 jdi w3
  have ho1 := jdi_panel_on_frame 1 (jdi_panel_init jdi w3).2.1 (jdi_panel_init jdi w3).2.2
  have ho2 := jdi_panel_on_frame 2 (jdi_panel_init jdi w3).2.1 (jdi_panel_init jdi w3).2.2
  split_ifs at hR with h1 h2
  · left
    subst hR
    unfold jdi_panel_prepare_reset jdi_panel_prepare_poweroff1
    refine ⟨h1, by rw [hi1.2.1, hp], ?_, ?_⟩
    · split_ifs <;> simp [call_unmatched, emit_unmatched, unmatched, hi1.1] <;> omega
    · split_ifs <;> simp [call_unmatched, emit_unmatched, unmatched, hi2.1] <;> omega
  · left
    subst hR
    unfold jdi_panel_prepare_reset jdi_panel_prepare_poweroff1
    refine ⟨h2, by rw [ho1.2.1, hi1.2.1, hp], ?_, ?_⟩
    · split_ifs <;> simp [call_unmatched, emit_unmatched, unmatched, hi1.1, ho1.1] <;> omega
    · split_ifs <;> simp [call_unmatched, emit_unmatched, unmatched, hi2.1, ho2.1] <;> omega
  · right
    subst hR
    exact ⟨rfl, rfl, by rw [ho1.1, hi1.1], by rw [ho2.1, hi2.1]⟩

/-- What `jdi_panel_prepare` does to the balance of the two supplies. -/
theorem jdi_panel_prepare_spec (jdi : jdi_panel) (w : World) :
    (jdi.prepared = true → jdi_panel_prepare jdi w = (0, jdi, w)) ∧
    (jdi.prepared = false →
      ((jdi_panel_prepare jdi w).1 < 0 ∧
        (jdi_panel_prepare jdi w).2.1.prepared = false ∧
        unmatched 1 (jdi_panel_prepare jdi w).2.2.trace = unmatched 1 w.trace ∧
        unmatched 2 (jdi_panel_prepare jdi w).2.2.trace = unmatched 2 w.trace) ∨
      ((jdi_panel_prepare jdi w).1 = 0 ∧
        (jdi_panel_prepare jdi w).2.1.prepared = true ∧
        unmatched 1 (jdi_panel_prepare jdi w).2.2.trace = unmatched 1 w.trace + 1 ∧
        unmatched 2 (jdi_panel_prepare jdi w).2.2.trace = unmatched 2 w.trace + 1)) := by
  constructor
  · intro hp
    simp [jdi_panel_prepare, hp]
  · intro hp
    by_cases h1 : (w.call (Event.regulator_enable 1)).1 < 0
    · left
      simp [jdi_panel_prepare, hp, h1, call_unmatched, unmatched, not_le.mpr h1]
    · by_cases h2 : (((w.call (Event.regulator_enable 1)).2.emit (Event.msleep 10)).call
          (Event.regulator_enable 2)).1 < 0
      · left
        simp [jdi_panel_prepare, jdi_panel_prepare_poweroff1, hp, h1, h2, call_unmatched,
          emit_unmatched, unmatched, not_lt.mp h1, not_le.mpr h2]
      · have ht := jdi_panel_prepare_tail jdi
          (if jdi.reset_gpio = true then
            (((((((w.call (Event.regulator_enable 1)).2.emit (Event.msleep 10)).call
              (Event.regulator_enable 2)).2.emit (Event.msleep 10)).emit
              (Event.gpiod_set_value 0)).emit (Event.msleep 10)).emit
              (Event.gpiod_set_value 1)).emit (Event.msleep 60)
          else
            (((w.call (Event.regulator_enable 1)).2.emit (Event.msleep 10)).call
              (Event.regulator_enable 2)).2.emit (Event.msleep 10)) hp
          (jdi_panel_prepare jdi w)
          (by simp only [jdi_panel_prepare, hp, h1, h2, if_false, Bool.false_eq_true])
        have e1 : unmatched 1 (if jdi.reset_gpio = true then
            (((((((w.call (Event.regulator_enable 1)).2.emit (Event.msleep 10)).call
              (Event.regulator_enable 2)).2.emit (Event.msleep 10)).emit
              (Event.gpiod_set_value 0)).emit (Event.msleep 10)).emit
              (Event.gpiod_set_value 1)).emit (Event.msleep 60)
          else
            (((w.call (Event.regulator_enable 1)).2.emit (Event.msleep 10)).call
              (Event.regulator_enable 2)).2.emit (Event.msleep 10)).trace
            = unmatched 1 w.trace + 1 := by
          split_ifs <;>
            simp [call_unmatched, emit_unmatched, unmatched, not_lt.mp h1, not_lt.mp h2]
        have e2 : unmatched 2 (if jdi.reset_gpio = true then
            (((((((w.call (Event.regulator_enable 1)).2.emit (Event.msleep 10)).call
              (Event.regulator_enable 2)).2.emit (Event.msleep 10)).emit
              (Event.gpiod_set_value 0)).emit (Event.msleep 10)).emit
              (Event.gpiod_set_value 1)).emit (Event.msleep 60)
          else
            (((w.call (Event.regulator_enable 1)).2.emit (Event.msleep 10)).call
              (Event.regulator_enable 2)).2.emit (Event.msleep 10)).trace
            = unmatched 2 w.trace + 1 := by
          split_ifs <;>
            simp [call_unmatched, emit_unmatched, unmatched, not_lt.mp h1, not_lt.mp h2]
        rw [e1, e2] at ht
        rcases ht with ⟨ha, hb, hc, hd⟩ | ⟨ha, hb, hc, hd⟩
        · exact Or.inl ⟨ha, hb, by omega, by omega⟩
        · exact Or.inr ⟨ha, hb, hc, hd⟩

/-- What `jdi_panel_unprepare` does to the balance of the two supplies. -/
theorem jdi_panel_unprepare_spec (jdi : jdi_panel) (w : World) :
    (jdi.prepared = false → jdi_panel_unprepare jdi w = (0, jdi, w)) ∧
    (jdi.prepared = true →
      ((jdi_panel_unprepare jdi w).1 < 0 ∧
        (jdi_panel_unprepare jdi w).2.1.prepared = true ∧
        unmatched 1 (jdi_panel_unprepare jdi w).2.2.trace = unmatched 1 w.trace ∧
        unmatched 2 (jdi_panel_unprepare jdi w).2.2.trace = unmatched 2 w.trace) ∨
      ((jdi_panel_unprepare jdi w).1 = 0 ∧
        (jdi_panel_unprepare jdi w).2.1.prepared = false ∧
        unmatched 1 (jdi_panel_unprepare jdi w).2.2.trace = unmatched 1 w.trace - 1 ∧
        unmatched 2 (jdi_panel_unprepare jdi w).2.2.trace = unmatched 2 w.trace - 1)) := by
  constructor
  · intro hp
    simp [jdi_panel_unprepare, hp]
  · intro hp
    have hf1 := jdi_panel_off_frame 1 jdi w
    have hf2 := jdi_panel_off_frame 2 jdi w
    by_cases h : (jdi_panel_off jdi w).1 < 0
    · left
      simp [jdi_panel_unprepare, hp, h, hf1.1, hf2.1, hf1.2.1]
    · right
      simp only [jdi_panel_unprepare, hp, h, if_false, not_true_eq_false, true_and]
      constructor <;> split_ifs <;>
        simp [call_unmatched, emit_unmatched, unmatched, hf1.1, hf2.1] <;> omega

/-- The function `nintendo_switch_panel_init` makes no regulator call and keeps the flags and the
reset GPIO of the panel. -/
theorem nintendo_switch_panel_init_frame (supply : Nat) (nintendo_switch : nintendo_switch_panel) (w : World) :
    unmatched supply (nintendo_switch_panel_init nintendo_switch w).2.2.trace = unmatched supply w.trace ∧
    (nintendo_switch_panel_init nintendo_switch w).2.1.prepared = nintendo_switch.prepared ∧
    (nintendo_switch_panel_init nintendo_switch w).2.1.reset_gpio = nintendo_switch.reset_gpio := by
  unfold nintendo_switch_panel_init
  simp only [write_init_cmds]
  split_ifs <;>
    simp only [call_unmatched, emit_unmatched, unmatched, and_self, and_true, add_zero]

/-- The function `nintendo_switch_panel_on` makes no regulator call and keeps the flags and the reset
GPIO of the panel. -/
theorem nintendo_switch_panel_on_frame (supply : Nat) (nintendo_switch : nintendo_switch_panel) (w : World) :
    unmatched supply (nintendo_switch_panel_on nintendo_switch w).2.2.trace = unmatched supply w.trace ∧
    (nintendo_switch_panel_on nintendo_switch w).2.1.prepared = nintendo_switch.prepared ∧
    (nintendo_switch_panel_on nintendo_switch w).2.1.reset_gpio = nintendo_switch.reset_gpio := by
  unfold nintendo_switch_panel_on
  simp only []
  split_ifs <;> simp [call_unmatched, emit_unmatched, unmatched]

/-- The function `nintendo_switch_panel_off` makes no regulator call and keeps the flags and the
reset GPIO of the panel. -/
theorem nintendo_switch_panel_off_frame (supply : Nat) (nintendo_switch : nintendo_switch_panel) (w : World) :
    unmatched supply (nintendo_switch_panel_off nintendo_switch w).2.2.trace = unmatched supply w.trace ∧
    (nintendo_switch_panel_off nintendo_switch w).2.1.prepared = nintendo_switch.prepared ∧
    (nintendo_switch_panel_off nintendo_switch w).2.1.reset_gpio = nintendo_switch.reset_gpio := by
  unfold nintendo_switch_panel_off
  simp only []
  split_ifs <;> simp [call_unmatched, emit_unmatched, unmatched]

/-- The part of `nintendo_switch_panel_prepare` that follows the reset pulse, from any world: either
it fails, and both supplies have been disabled once, or it succeeds without a regulator
call. -/
theorem nintendo_switch_panel_prepare_tail (nintendo_switch : nintendo_switch_panel) (w3 : World) (hp : nintendo_switch.prepared = false) :
    ∀ R : Int × nintendo_switch_panel × World,
      R = (if (nintendo_switch_panel_init nintendo_switch w3).1 < 0 then
            nintendo_switch_panel_prepare_reset (nintendo_switch_panel_init nintendo_switch w3).1 (nintendo_switch_panel_init nintendo_switch w3).2.1
              (nintendo_switch_panel_init nintendo_switch w3).2.2
          else if (nintendo_switch_panel_on (nintendo_switch_panel_init nintendo_switch w3).2.1 (nintendo_switch_panel_init nintendo_switch w3).2.2).1 < 0
          then
            nintendo_switch_panel_prepare_reset
              (nintendo_switch_panel_on (nintendo_switch_panel_init nintendo_switch w3).2.1 (nintendo_switch_panel_init nintendo_switch w3).2.2).1
              (nintendo_switch_panel_on (nintendo_switch_panel_init nintendo_switch w3).2.1 (nintendo_switch_panel_init nintendo_switch w3).2.2).2.1
              (nintendo_switch_panel_on (nintendo_switch_panel_init nintendo_switch w3).2.1 (nintendo_switch_panel_init nintendo_switch w3).2.2).2.2
          else
            (0, { (nintendo_switch_panel_on (nintendo_switch_panel_init nintendo_switch w3).2.1
                    (nintendo_switch_panel_init nintendo_switch w3).2.2).2.1 with prepared := true },
              (nintendo_switch_panel_on (nintendo_switch_panel_init nintendo_switch w3).2.1 (nintendo_switch_panel_init nintendo_switch w3).2.2).2.2)) →
      (R.1 < 0 ∧ R.2.1.prepared = false ∧
        unmatched 1 R.2.2.trace = unmatched 1 w3.trace - 1 ∧
        unmatched 2 R.2.2.trace = unmatched 2 w3.trace - 1) ∨
      (R.1 = 0 ∧ R.2.1.prepared = true ∧
        unmatched 1 R.2.2.trace = unmatched 1 w3.trace ∧
        unmatched 2 R.2.2.trace = unmatched 2 w3.trace) := by
  intro R hR
  have hi1 := nintendo_switch_panel_init_frame 1 nintendo_switch w3
  have hi2 := nintendo_switch_panel_init_frame 2 nintendo_switch w3
  have ho1 := nintendo_switch_panel_on_frame 1 (nintendo_switch_panel_init nintendo_switch w3).2.1 (nintendo_switch_panel_init nintendo_switch w3).2.2
  have ho2 := nintendo_switch_panel_on_frame 2 (nintendo_switch_panel_init nintendo_switch w3).2.1 (nintendo_switch_panel_init nintendo_switch w3).2.2
  split_ifs at hR with h1 h2
  · left
    subst hR
    unfold nintendo_switch_panel_prepare_reset nintendo_switch_panel_prepare_poweroff1
    refine ⟨h1, by rw [hi1.2.1, hp], ?_, ?_⟩
    · split_ifs <;> simp [call_unmatched, emit_unmatched, unmatched, hi1.1] <;> omega
    · split_ifs <;> simp [call_unmatched, emit_unmatched, unmatched, hi2.1] <;> omega
  · left
    subst hR
    unfold nintendo_switch_panel_prepare_reset nintendo_switch_panel_prepare_poweroff1
    refine ⟨h2, by rw [ho1.2.1, hi1.2.1, hp], ?_, ?_⟩
    · split_ifs <;> simp [call_unmatched, emit_unmatched, unmatched, hi1.1, ho1.1] <;> omega
    · split_ifs <;> simp [call_unmatched, emit_unmatched, unmatched, hi2.1, ho2.1] <;> omega
  · right
    subst hR
    exact ⟨rfl, rfl, by rw [ho1.1, hi1.1], by rw [ho2.1, hi2.1]⟩

/-- What `nintendo_switch_panel_prepare` does to the balance of the two supplies. -/
theorem nintendo_switch_panel_prepare_spec (nintendo_switch : nintendo_switch_panel) (w : World) :
    (nintendo_switch.prepared = true → nintendo_switch_panel_prepare nintendo_switch w = (0, nintendo_switch, w)) ∧
    (nintendo_switch.prepared = false →
      ((nintendo_switch_panel_prepare nintendo_switch w).1 < 0 ∧
        (nintendo_switch_panel_prepare nintendo_switch w).2.1.prepared = false ∧
        unmatched 1 (nintendo_switch_panel_prepare nintendo_switch w).2.2.trace = unmatched 1 w.trace ∧
        unmatched 2 (nintendo_switch_panel_prepare nintendo_switch w).2.2.trace = unmatched 2 w.trace) ∨
      ((nintendo_switch_panel_prepare nintendo_switch w).1 = 0 ∧
        (nintendo_switch_panel_prepare nintendo_switch w).2.1.prepared = true ∧
        unmatched 1 (nintendo_switch_panel_prepare nintendo_switch w).2.2.trace = unmatched 1 w.trace + 1 ∧
        unmatched 2 (nintendo_switch_panel_prepare nintendo_switch w).2.2.trace = unmatched 2 w.trace + 1)) := by
  constructor
  · intro hp
    simp [nintendo_switch_panel_prepare, hp]
  · intro hp
    by_cases h1 : (w.call (Event.regulator_enable 1)).1 < 0
    · left
      simp [nintendo_switch_panel_prepare, hp, h1, call_unmatched, unmatched, not_le.mpr h1]
    · by_cases h2 : (((w.call (Event.regulator_enable 1)).2.emit (Event.msleep 10)).call
          (Event.regulator_enable 2)).1 < 0
      · left
        simp [nintendo_switch_panel_prepare, nintendo_switch_panel_prepare_poweroff1, hp, h1, h2, call_unmatched,
          emit_unmatched, unmatched, not_lt.mp h1, not_le.mpr h2]
      · have ht := nintendo_switch_panel_prepare_tail nintendo_switch
          (if nintendo_switch.reset_gpio = true then
            (((((((w.call (Event.regulator_enable 1)).2.emit (Event.msleep 10)).call
              (Event.regulator_enable 2)).2.emit (Event.msleep 10)).emit
              (Event.gpiod_set_value 0)).emit (Event.msleep 10)).emit
              (Event.gpiod_set_value 1)).emit (Event.msleep 60)
          else
            (((w.call (Event.regulator_enable 1)).2.emit (Event.msleep 10)).call
              (Event.regulator_enable 2)).2.emit (Event.msleep 10)) hp
          (nintendo_switch_panel_prepare nintendo_switch w)
          (by simp only [nintendo_switch_panel_prepare, hp, h1, h2, if_false, Bool.false_eq_true])
        have e1 : unmatched 1 (if nintendo_switch.reset_gpio = true then
            (((((((w.call (Event.regulator_enable 1)).2.emit (Event.msleep 10)).call
              (Event.regulator_enable 2)).2.emit (Event.msleep 10)).emit
              (Event.gpiod_set_value 0)).emit (Event.msleep 10)).emit
              (Event.gpiod_set_value 1)).emit (Event.msleep 60)
          else
            (((w.call (Event.regulator_enable 1)).2.emit (Event.msleep 10)).call
              (Event.regulator_enable 2)).2.emit (Event.msleep 10)).trace
            = unmatched 1 w.trace + 1 := by
          split_ifs <;>
            simp [call_unmatched, emit_unmatched, unmatched, not_lt.mp h1, not_lt.mp h2]
        have e2 : unmatched 2 (if nintendo_switch.reset_gpio = true then
            (((((((w.call (Event.regulator_enable 1)).2.emit (Event.msleep 10)).call
              (Event.regulator_enable 2)).2.emit (Event.msleep 10)).emit
              (Event.gpiod_set_value 0)).emit (Event.msleep 10)).emit
              (Event.gpiod_set_value 1)).emit (Event.msleep 60)
          else
            (((w.call (Event.regulator_enable 1)).2.emit (Event.msleep 10)).call
              (Event.regulator_enable 2)).2.emit (Event.msleep 10)).trace
            = unmatched 2 w.trace + 1 := by
          split_ifs <;>
            simp [call_unmatched, emit_unmatched, unmatched, not_lt.mp h1, not_lt.mp h2]
        rw [e1, e2] at ht
        rcases ht with ⟨ha, hb, hc, hd⟩ | ⟨ha, hb, hc, hd⟩
        · exact Or.inl ⟨ha, hb, by omega, by omega⟩
        · exact Or.inr ⟨ha, hb, hc, hd⟩

/-- What `nintendo_switch_panel_unprepare` does to the balance of the two supplies. -/
theorem nintendo_switch_panel_unprepare_spec (nintendo_switch : nintendo_switch_panel) (w : World) :
    (nintendo_switch.prepared = false → nintendo_switch_panel_unprepare nintendo_switch w = (0, nintendo_switch, w)) ∧
    (nintendo_switch.prepared = true →
      ((nintendo_switch_panel_unprepare nintendo_switch w).1 < 0 ∧
        (nintendo_switch_panel_unprepare nintendo_switch w).2.1.prepared = true ∧
        unmatched 1 (nintendo_switch_panel_unprepare nintendo_switch w).2.2.trace = unmatched 1 w.trace ∧
        unmatched 2 (nintendo_switch_panel_unprepare nintendo_switch w).2.2.trace = unmatched 2 w.trace) ∨
      ((nintendo_switch_panel_unprepare nintendo_switch w).1 = 0 ∧
        (nintendo_switch_panel_unprepare nintendo_switch w).2.1.prepared = false ∧
        unmatched 1 (nintendo_switch_panel_unprepare nintendo_switch w).2.2.trace = unmatched 1 w.trace - 1 ∧
        unmatched 2 (nintendo_switch_panel_unprepare nintendo_switch w).2.2.trace = unmatched 2 w.trace - 1)) := by
  constructor
  · intro hp
    simp [nintendo_switch_panel_unprepare, hp]
  · intro hp
    have hf1 := nintendo_switch_panel_off_frame 1 nintendo_switch w
    have hf2 := nintendo_switch_panel_off_frame 2 nintendo_switch w
    by_cases h : (nintendo_switch_panel_off nintendo_switch w).1 < 0
    · left
      simp [nintendo_switch_panel_unprepare, hp, h, hf1.1, hf2.1, hf1.2.1]
    · right
      simp only [nintendo_switch_panel_unprepare, hp, h, if_false, not_true_eq_false, true_and]
      constructor <;> split_ifs <;>
        simp [call_unmatched, emit_unmatched, unmatched, hf1.1, hf2.1] <;> omega

/-- The balance is kept by `jdi_panel_prepare`. -/
theorem jdi_panel_prepare_balanced (jdi : jdi_panel) (w : World)
    (h : balanced jdi.prepared w) :
    balanced (jdi_panel_prepare jdi w).2.1.prepared (jdi_panel_prepare jdi w).2.2 := by
  obtain ⟨h1, h2⟩ := h
  cases hp : jdi.prepared with
  | true =>
    rw [(jdi_panel_prepare_spec jdi w).1 hp]
    simp only [hp] at h1 h2 ⊢
    exact ⟨h1, h2⟩
  | false =>
    simp only [hp] at h1 h2
    rcases (jdi_panel_prepare_spec jdi w).2 hp with ⟨-, hb, hc, hd⟩ | ⟨-, hb, hc, hd⟩
    · exact ⟨by rw [hb, hc]; exact h1, by rw [hb, hd]; exact h2⟩
    · refine ⟨?_, ?_⟩
      · rw [hb, hc, h1]
        rfl
      · rw [hb, hd, h2]
        rfl

/-- The balance is kept by `jdi_panel_unprepare`. -/
theorem jdi_panel_unprepare_balanced (jdi : jdi_panel) (w : World)
    (h : balanced jdi.prepared w) :
    balanced (jdi_panel_unprepare jdi w).2.1.prepared (jdi_panel_unprepare jdi w).2.2 := by
  obtain ⟨h1, h2⟩ := h
  cases hp : jdi.prepared with
  | false =>
    rw [(jdi_panel_unprepare_spec jdi w).1 hp]
    simp only [hp] at h1 h2 ⊢
    exact ⟨h1, h2⟩
  | true =>
    simp only [hp] at h1 h2
    rcases (jdi_panel_unprepare_spec jdi w).2 hp with ⟨-, hb, hc, hd⟩ | ⟨-, hb, hc, hd⟩
    · exact ⟨by rw [hb, hc]; exact h1, by rw [hb, hd]; exact h2⟩
    · refine ⟨?_, ?_⟩
      · rw [hb, hc, h1]
        rfl
      · rw [hb, hd, h2]
        rfl

/-- The balance is kept by every sequence of prepare and unprepare calls. -/
theorem jdi_run_balanced (ops : List Op) :
    ∀ s : jdi_panel × World, balanced s.1.prepared s.2 →
      balanced (jdi_run ops s).1.prepared (jdi_run ops s).2 := by
  induction ops with
  | nil => intro s h; exact h
  | cons op rest ih =>
    intro s h
    cases op with
    | prepare => exact ih _ (jdi_panel_prepare_balanced s.1 s.2 h)
    | unprepare => exact ih _ (jdi_panel_unprepare_balanced s.1 s.2 h)

/-- The balance is kept by `nintendo_switch_panel_prepare`. -/
theorem nintendo_switch_panel_prepare_balanced (nintendo_switch : nintendo_switch_panel) (w : World)
    (h : balanced nintendo_switch.prepared w) :
    balanced (nintendo_switch_panel_prepare nintendo_switch w).2.1.prepared (nintendo_switch_panel_prepare nintendo_switch w).2.2 := by
  obtain ⟨h1, h2⟩ := h
  cases hp : nintendo_switch.prepared with
  | true =>
    rw [(nintendo_switch_panel_prepare_spec nintendo_switch w).1 hp]
    simp only [hp] at h1 h2 ⊢
    exact ⟨h1, h2⟩
  | false =>
    simp only [hp] at h1 h2
    rcases (nintendo_switch_panel_prepare_spec nintendo_switch w).2 hp with ⟨-, hb, hc, hd⟩ | ⟨-, hb, hc, hd⟩
    · exact ⟨by rw [hb, hc]; exact h1, by rw [hb, hd]; exact h2⟩
    · refine ⟨?_, ?_⟩
      · rw [hb, hc, h1]
        rfl
      · rw [hb, hd, h2]
        rfl

/-- The balance is kept by `nintendo_switch_panel_unprepare`. -/
theorem nintendo_switch_panel_unprepare_balanced (nintendo_switch : nintendo_switch_panel) (w : World)
    (h : balanced nintendo_switch.prepared w) :
    balanced (nintendo_switch_panel_unprepare nintendo_switch w).2.1.prepared (nintendo_switch_panel_unprepare nintendo_switch w).2.2 := by
  obtain ⟨h1, h2⟩ := h
  cases hp : nintendo_switch.prepared with
  | false =>
    rw [(nintendo_switch_panel_unprepare_spec nintendo_switch w).1 hp]
    simp only [hp] at h1 h2 ⊢
    exact ⟨h1, h2⟩
  | true =>
    simp only [hp] at h1 h2
    rcases (nintendo_switch_panel_unprepare_spec nintendo_switch w).2 hp with ⟨-, hb, hc, hd⟩ | ⟨-, hb, hc, hd⟩
    · exact ⟨by rw [hb, hc]; exact h1, by rw [hb, hd]; exact h2⟩
    · refine ⟨?_, ?_⟩
      · rw [hb, hc, h1]
        rfl
      · rw [hb, hd, h2]
        rfl

/-- The balance is kept by every sequence of prepare and unprepare calls. -/
theorem nintendo_switch_run_balanced (ops : List Op) :
    ∀ s : nintendo_switch_panel × World, balanced s.1.prepared s.2 →
      balanced (nintendo_switch_run ops s).1.prepared (nintendo_switch_run ops s).2 := by
  induction ops with
  | nil => intro s h; exact h
  | cons op rest ih =>
    intro s h
    cases op with
    | prepare => exact ih _ (nintendo_switch_panel_prepare_balanced s.1 s.2 h)
    | unprepare => exact ih _ (nintendo_switch_panel_unprepare_balanced s.1 s.2 h)

/-! ## Prepare and unprepare keep the supplies balanced -/

/-- C23: in both panel drivers, for every sequence of prepare and unprepare calls and
every outcome of the regulator and DSI calls, the successful `regulator_enable` calls
not yet matched by a `regulator_disable` call number the same on both supplies, 1 when
`prepared` is set and 0 when it is not; a failed prepare leaves `prepared` unset and
the balance of both supplies as it was, a failed unprepare leaves `prepared` set and
makes no regulator call, and prepare on a prepared panel and unprepare on an unprepared
one return 0 and change nothing. -/
theorem C23_panel_supplies_balanced :
    ((∀ (ops : List Op) (s : jdi_panel × World), balanced s.1.prepared s.2 →
        balanced (jdi_run ops s).1.prepared (jdi_run ops s).2) ∧
      (∀ (jdi : jdi_panel) (w : World), jdi.prepared = false →
        (jdi_panel_prepare jdi w).1 < 0 →
          (jdi_panel_prepare jdi w).2.1.prepared = false ∧
          unmatched 1 (jdi_panel_prepare jdi w).2.2.trace = unmatched 1 w.trace ∧
          unmatched 2 (jdi_panel_prepare jdi w).2.2.trace = unmatched 2 w.trace) ∧
      (∀ (jdi : jdi_panel) (w : World), jdi.prepared = true →
        (jdi_panel_unprepare jdi w).1 < 0 →
          (jdi_panel_unprepare jdi w).2.1.prepared = true ∧
          unmatched 1 (jdi_panel_unprepare jdi w).2.2.trace = unmatched 1 w.trace ∧
          unmatched 2 (jdi_panel_unprepare jdi w).2.2.trace = unmatched 2 w.trace) ∧
      (∀ (jdi : jdi_panel) (w : World), jdi.prepared = true →
        jdi_panel_prepare jdi w = (0, jdi, w)) ∧
      (∀ (jdi : jdi_panel) (w : World), jdi.prepared = false →
        jdi_panel_unprepare jdi w = (0, jdi, w))) ∧
    ((∀ (ops : List Op) (s : nintendo_switch_panel × World), balanced s.1.prepared s.2 →
        balanced (nintendo_switch_run ops s).1.prepared (nintendo_switch_run ops s).2) ∧
      (∀ (nintendo_switch : nintendo_switch_panel) (w : World), nintendo_switch.prepared = false →
        (nintendo_switch_panel_prepare nintendo_switch w).1 < 0 →
          (nintendo_switch_panel_prepare nintendo_switch w).2.1.prepared = false ∧
          unmatched 1 (nintendo_switch_panel_prepare nintendo_switch w).2.2.trace = unmatched 1 w.trace ∧
          unmatched 2 (nintendo_switch_panel_prepare nintendo_switch w).2.2.trace = unmatched 2 w.trace) ∧
      (∀ (nintendo_switch : nintendo_switch_panel) (w : World), nintendo_switch.prepared = true →
        (nintendo_switch_panel_unprepare nintendo_switch w).1 < 0 →
          (nintendo_switch_panel_unprepare nintendo_switch w).2.1.prepared = true ∧
          unmatched 1 (nintendo_switch_panel_unprepare nintendo_switch w).2.2.trace = unmatched 1 w.trace ∧
          unmatched 2 (nintendo_switch_panel_unprepare nintendo_switch w).2.2.trace = unmatched 2 w.trace) ∧
      (∀ (nintendo_switch : nintendo_switch_panel) (w : World), nintendo_switch.prepared = true →
        nintendo_switch_panel_prepare nintendo_switch w = (0, nintendo_switch, w)) ∧
      (∀ (nintendo_switch : nintendo_switch_panel) (w : World), nintendo_switch.prepared = false →
        nintendo_switch_panel_unprepare nintendo_switch w = (0, nintendo_switch, w))) := by
  refine ⟨?_, ?_⟩
  · refine ⟨jdi_run_balanced, ?_, ?_, ?_, ?_⟩
    · intro jdi w hp hneg
      rcases (jdi_panel_prepare_spec jdi w).2 hp with ⟨-, hb, hc, hd⟩ | ⟨ha, -, -, -⟩
      · exact ⟨hb, hc, hd⟩
      · omega
    · intro jdi w hp hneg
      rcases (jdi_panel_unprepare_spec jdi w).2 hp with ⟨-, hb, hc, hd⟩ | ⟨ha, -, -, -⟩
      · exact ⟨hb, hc, hd⟩
      · omega
    · intro jdi w hp
      exact (jdi_panel_prepare_spec jdi w).1 hp
    · intro jdi w hp
      exact (jdi_panel_unprepare_spec jdi w).1 hp
  · refine ⟨nintendo_switch_run_balanced, ?_, ?_, ?_, ?_⟩
    · intro nintendo_switch w hp hneg
      rcases (nintendo_switch_panel_prepare_spec nintendo_switch w).2 hp with ⟨-, hb, hc, hd⟩ | ⟨ha, -, -, -⟩
      · exact ⟨hb, hc, hd⟩
      · omega
    · intro nintendo_switch w hp hneg
      rcases (nintendo_switch_panel_unprepare_spec nintendo_switch w).2 hp with ⟨-, hb, hc, hd⟩ | ⟨ha, -, -, -⟩
      · exact ⟨hb, hc, hd⟩
      · omega
    · intro nintendo_switch w hp
      exact (nintendo_switch_panel_prepare_spec nintendo_switch w).1 hp
    · intro nintendo_switch w hp
      exact (nintendo_switch_panel_unprepare_spec nintendo_switch w).1 hp

/-- C23 on a concrete run of the JDI driver: prepare, unprepare, prepare, where the
call made after 28 recorded ones, the second `regulator_enable` of the last prepare,
fails. -/
theorem C23_panel_supplies_balanced_witness :
    balanced false { answers := fun n => if n = 28 then -5 else 0, display_id := 0x10,
                     trace := [] } ∧
    balanced
      (jdi_run [Op.prepare, Op.unprepare, Op.prepare]
        ({ backlight := false, reset_gpio := true, prepared := false, enabled := false,
           mode_flags_lpm := false },
         { answers := fun n => if n = 28 then -5 else 0, display_id := 0x10,
           trace := [] })).1.prepared
      (jdi_run [Op.prepare, Op.unprepare, Op.prepare]
        ({ backlight := false, reset_gpio := true, prepared := false, enabled := false,
           mode_flags_lpm := false },
         { answers := fun n => if n = 28 then -5 else 0, display_id := 0x10,
           trace := [] })).2 :=
  ⟨⟨rfl, rfl⟩,
    C23_panel_supplies_balanced.1.1 [Op.prepare, Op.unprepare, Op.prepare]
      ({ backlight := false, reset_gpio := true, prepared := false, enabled := false,
         mode_flags_lpm := false },
       { answers := fun n => if n = 28 then -5 else 0, display_id := 0x10, trace := [] })
      ⟨rfl, rfl⟩⟩

end Panel

namespace Nouveau

/-! ## Import failure paths -/

/-- C24: for a buffer that is not an export of this device, when `dma_buf_attach` fails
`nouveau_gem_prime_import` returns its error without taking a reference; when a later
step fails (mapping the attachment, creating the buffer object, initialising the GEM
object) it returns the error of that step after dropping the buffer object if it was
created, unmapping the attachment if it was mapped, detaching and dropping its one
reference, in this order, so that the buffer (reference count, attachments, mappings)
is as before the call. -/
theorem C24_import_failure_undoes (w : World) (env : Env) (dev : Nat)
    (hown : ¬ (w.buf.ops_nouveau = true ∧ w.buf.priv_dev = dev)) :
    (∀ e, env.attach = ptr_or_err.err e →
      nouveau_gem_prime_import w env dev =
        (ptr_or_err.err e,
          { w with trace := w.trace ++ [Event.dma_buf_attach dev (ptr_or_err.err e)] })) ∧
    (∀ a, env.attach = ptr_or_err.ptr a →
      (∀ e, env.map = ptr_or_err.err e →
        nouveau_gem_prime_import w env dev =
          (ptr_or_err.err e,
            { w with trace := w.trace ++
                [Event.dma_buf_attach dev (ptr_or_err.ptr a), Event.get_dma_buf,
                 Event.dma_buf_map_attachment a (ptr_or_err.err e),
                 Event.dma_buf_detach a, Event.dma_buf_put] })) ∧
      (∀ sgt, env.map = ptr_or_err.ptr sgt → env.bo_new_ret ≠ 0 →
        nouveau_gem_prime_import w env dev =
          (ptr_or_err.err env.bo_new_ret,
            { w with trace := w.trace ++
                [Event.dma_buf_attach dev (ptr_or_err.ptr a), Event.get_dma_buf,
                 Event.dma_buf_map_attachment a (ptr_or_err.ptr sgt),
                 Event.ww_mutex_lock, Event.nouveau_bo_new w.buf.size sgt env.bo_new_ret,
                 Event.ww_mutex_unlock,
                 Event.dma_buf_unmap_attachment a sgt,
                 Event.dma_buf_detach a, Event.dma_buf_put] })) ∧
      (∀ sgt, env.map = ptr_or_err.ptr sgt → env.bo_new_ret = 0 → env.gem_init_ret ≠ 0 →
        nouveau_gem_prime_import w env dev =
          (ptr_or_err.err env.gem_init_ret,
            { w with trace := w.trace ++
                [Event.dma_buf_attach dev (ptr_or_err.ptr a), Event.get_dma_buf,
                 Event.dma_buf_map_attachment a (ptr_or_err.ptr sgt),
                 Event.ww_mutex_lock, Event.nouveau_bo_new w.buf.size sgt env.bo_new_ret,
                 Event.ww_mutex_unlock,
                 Event.drm_gem_object_init env.bo env.gem_init_ret,
                 Event.nouveau_bo_ref_null env.bo,
                 Event.dma_buf_unmap_attachment a sgt,
                 Event.dma_buf_detach a, Event.dma_buf_put] }))) := by
  obtain ⟨buf, trace⟩ := w
  obtain ⟨ops_nouveau, priv, priv_dev, size, refcount, attachments, mappings⟩ := buf
  refine ⟨?_, ?_⟩
  · intro e he
    simp only [nouveau_gem_prime_import, if_neg hown, he, dma_buf_attach]
  · intro a ha
    refine ⟨?_, ?_, ?_⟩
    · intro e he
      simp [nouveau_gem_prime_import, if_neg hown, ha, he, dma_buf_attach, get_dma_buf,
        dma_buf_map_attachment, nouveau_gem_prime_import_detach, dma_buf_detach,
        dma_buf_put]
    · intro sgt hs hb
      simp [nouveau_gem_prime_import, if_neg hown, ha, hs, hb, dma_buf_attach, get_dma_buf,
        dma_buf_map_attachment, nouveau_gem_prime_import_unmap,
        nouveau_gem_prime_import_detach, dma_buf_unmap_attachment, dma_buf_detach,
        dma_buf_put, World.emit]
    · intro sgt hs hb hg
      simp [nouveau_gem_prime_import, if_neg hown, ha, hs, hb, hg, dma_buf_attach,
        get_dma_buf, dma_buf_map_attachment, nouveau_gem_prime_import_unref,
        nouveau_gem_prime_import_unmap, nouveau_gem_prime_import_detach,
        dma_buf_unmap_attachment, dma_buf_detach, dma_buf_put, World.emit]

/-- C24 at a concrete import in which `drm_gem_object_init` fails with -12: the buffer
with reference count 2 and one attachment is left as it was. -/
theorem C24_import_failure_undoes_witness :
    nouveau_gem_prime_import
        { buf := { ops_nouveau := false, priv := 0, priv_dev := 0, size := 4096,
                   refcount := 2, attachments := [7], mappings := [] },
          trace := [] }
        { attach := ptr_or_err.ptr 8, map := ptr_or_err.ptr 50, bo_new_ret := 0, bo := 9,
          gem_init_ret := -12 } 1 =
      (ptr_or_err.err (-12),
        { buf := { ops_nouveau := false, priv := 0, priv_dev := 0, size := 4096,
                   refcount := 2, attachments := [7], mappings := [] },
          trace := [] ++
            [Event.dma_buf_attach 1 (ptr_or_err.ptr 8), Event.get_dma_buf,
             Event.dma_buf_map_attachment 8 (ptr_or_err.ptr 50),
             Event.ww_mutex_lock, Event.nouveau_bo_new 4096 50 0, Event.ww_mutex_unlock,
             Event.drm_gem_object_init 9 (-12),
             Event.nouveau_bo_ref_null 9,
             Event.dma_buf_unmap_attachment 8 50,
             Event.dma_buf_detach 8, Event.dma_buf_put] }) :=
  ((C24_import_failure_undoes
      { buf := { ops_nouveau := false, priv := 0, priv_dev := 0, size := 4096,
                 refcount := 2, attachments := [7], mappings := [] },
        trace := [] }
      { attach := ptr_or_err.ptr 8, map := ptr_or_err.ptr 50, bo_new_ret := 0, bo := 9,
        gem_init_ret := -12 } 1 (by decide)).2 8 rfl).2.2 50 rfl rfl (by decide)

end Nouveau
